import Mathlib

/-!
Verification of the benchmark execution engine of `graphql-client-benchmarks`
(`src/execution.ts`) against its natural-language specification.

The engine is shallowly embedded as pure Lean functions.  JavaScript numbers
are modelled as rationals; the ambient clock (`performance-now`) is an
environment-supplied function from tick indices to rationals; asynchronous
suspension points (`await`) are modelled by an await counter through which a
cooperative `cancel()` call becomes visible; each lifecycle step of a single
benchmark pass is given an environment-supplied outcome (success, or a thrown
error identifier).  The `fast-stats` library is not part of the repository
sources, so the statistics accumulator is modelled from the specification,
working with squared quantities so that every definition stays executable
(square roots of rationals are irrational in general; since squaring is
monotone on nonnegative numbers, order comparisons of margins of error are
faithfully represented by comparisons of their squares).
-/

namespace GqlBench

/-! ## Statistics accumulator

Modelled from the spec: the Statistics Accumulator ("fast-stats" npm library,
whose code is not under `src/`).  The spec gives: `mean` is the arithmetic
mean; `marginOfError` is the standard error scaled by a confidence
coefficient (the customary 95% coefficient 1.96); `relativeMarginOfError` is
`marginOfError / mean * 100`.  We represent the squared margin of error and
the squared relative margin of error, which are rational-valued and
executable. -/

def amean (xs : List ℚ) : ℚ := xs.sum / (xs.length : ℚ)

def sumSqDev (xs : List ℚ) : ℚ :=
  (xs.map (fun x => (x - amean xs) * (x - amean xs))).sum

def variance (xs : List ℚ) : ℚ := sumSqDev xs / (xs.length : ℚ)

/-- Square of the 95% confidence coefficient 1.96. -/
def confCoeffSq : ℚ := 2401 / 625

/-- Square of the margin of error: (1.96 * stddev / sqrt n)^2. -/
def moeSq (xs : List ℚ) : ℚ := confCoeffSq * variance xs / (xs.length : ℚ)

/-- Square of `percentRelativeMarginOfError` from `src/execution.ts`
(`stats.moe() / stats.amean() * 100`). -/
def percentRelativeMarginOfErrorSq (xs : List ℚ) : ℚ :=
  moeSq xs / (amean xs * amean xs) * 10000

/-- Decision `percentRelativeMarginOfError xs <= target`, encoded on squares.
For a positive mean (the spec requires callers to guard against zero means)
the margin of error is nonnegative, so the comparison holds exactly when the
target is nonnegative and the squares compare. -/
def rmoeLeB (xs : List ℚ) (target : ℚ) : Bool :=
  decide (0 ≤ target) && decide (percentRelativeMarginOfErrorSq xs ≤ target * target)

/-! ## Configuration and the convergence predicate (from the source) -/

structure Configuration where
  verifyPasses : Nat
  warmups : Nat
  minSamples : Nat
  maxDurationMs : ℚ
  targetRelativeMarginOfError : ℚ
deriving DecidableEq

/-- Translation of `isFinalIteration` from `src/execution.ts`:
if the sample count is below `minSamples` never stop; else stop if the
elapsed time exceeds `maxDurationMs`; else stop exactly when the relative
margin of error is at most the target.  The fresh `performanceNow()` reading
is passed in as `tNow`. -/
def isFinalIteration (config : Configuration) (runStart tNow : ℚ)
    (samples : List ℚ) : Bool :=
  if samples.length < config.minSamples then false
  else if config.maxDurationMs < tNow - runStart then true
  else if rmoeLeB samples config.targetRelativeMarginOfError then true
  else false

/-! ## Claim C3 -/

/-- Claim C3: the iteration phase's convergence predicate is exactly: below
`minSamples`, never stop; otherwise, past `maxDurationMs`, stop regardless of
the margin of error; otherwise stop if and only if the relative margin of
error is at most the target.  In particular a sample set of size at least
`minSamples` whose elapsed time exceeds the cap still terminates the phase
even when its relative margin of error exceeds the target. -/
theorem isFinalIteration_spec (cfg : Configuration) (runStart tNow : ℚ)
    (xs : List ℚ) :
    (xs.length < cfg.minSamples → isFinalIteration cfg runStart tNow xs = false)
    ∧ (cfg.minSamples ≤ xs.length → cfg.maxDurationMs < tNow - runStart →
        isFinalIteration cfg runStart tNow xs = true)
    ∧ (cfg.minSamples ≤ xs.length → tNow - runStart ≤ cfg.maxDurationMs →
        (isFinalIteration cfg runStart tNow xs = true ↔
          rmoeLeB xs cfg.targetRelativeMarginOfError = true))
    ∧ (cfg.minSamples ≤ xs.length → cfg.maxDurationMs < tNow - runStart →
        rmoeLeB xs cfg.targetRelativeMarginOfError = false →
        isFinalIteration cfg runStart tNow xs = true) := by
  refine ⟨?_, ?_, ?_, ?_⟩
  · intro h
    simp [isFinalIteration, h]
  · intro h1 h2
    simp [isFinalIteration, Nat.not_lt.mpr h1, h2]
  · intro h1 h2
    have h2' : ¬ cfg.maxDurationMs < tNow - runStart := not_lt.mpr h2
    cases hb : rmoeLeB xs cfg.targetRelativeMarginOfError <;>
      simp [isFinalIteration, Nat.not_lt.mpr h1, h2', hb]
  · intro h1 h2 _
    simp [isFinalIteration, Nat.not_lt.mpr h1, h2]

/-- Witness for C3: with `minSamples = 2`, `maxDurationMs = 100`,
`target = 5`, the sample set `[0, 0, 6, 6]` (relative margin of error 98,
well above target) at elapsed time 200 still converges. -/
theorem isFinalIteration_spec_witness :
    isFinalIteration ⟨1, 0, 2, 100, 5⟩ 0 200 [0, 0, 6, 6] = true :=
  (isFinalIteration_spec ⟨1, 0, 2, 100, 5⟩ 0 200 [0, 0, 6, 6]).2.2.2
    (by norm_num) (by norm_num)
    (by norm_num [rmoeLeB, percentRelativeMarginOfErrorSq, moeSq, variance,
      sumSqDev, amean, confCoeffSq])

/-! ## Claim C9 -/

/-- Counterexample for C9.  The claim asserts that the relative margin of
error is monotonically non-increasing as more consistent (low-variance)
samples are appended.  Appending the sample `0` to `[0, 10]` strictly
decreases the sample variance (from 25 to 200/9), yet the squared relative
margin of error strictly increases (from 19208 to 76832/3); since squaring
is strictly monotone on nonnegatives and the means are positive, the
relative margin of error itself strictly increases. -/
theorem rmoe_not_monotone_counterexample :
    variance [0, 10, 0] < variance [0, 10]
    ∧ 0 < amean [0, 10] ∧ 0 < amean [0, 10, 0]
    ∧ percentRelativeMarginOfErrorSq [0, 10]
        < percentRelativeMarginOfErrorSq [0, 10, 0] := by
  norm_num [percentRelativeMarginOfErrorSq, moeSq, variance, sumSqDev, amean,
    confCoeffSq]

/-- Claim C9 (amended): appending a sample equal to the current mean never
increases the (squared) relative margin of error; appending samples can
increase it even when the sample variance decreases. -/
theorem rmoe_nonincreasing_at_mean (xs : List ℚ) (hne : xs ≠ [])
    (hm : 0 < amean xs) :
    percentRelativeMarginOfErrorSq (xs ++ [amean xs])
      ≤ percentRelativeMarginOfErrorSq xs := by
  have hn0 : xs.length ≠ 0 := by
    intro h
    exact hne (List.length_eq_zero.mp h)
  have hn : (0 : ℚ) < (xs.length : ℚ) := by
    exact_mod_cast Nat.pos_of_ne_zero hn0
  have hne' : ((xs.length : ℚ)) ≠ 0 := ne_of_gt hn
  have hne2 : ((xs.length : ℚ)) + 1 ≠ 0 := by positivity
  have hmean : amean (xs ++ [amean xs]) = amean xs := by
    unfold amean
    rw [List.sum_append, List.length_append]
    simp only [List.sum_cons, List.sum_nil, add_zero, List.length_cons,
      List.length_nil, zero_add, Nat.cast_add, Nat.cast_one]
    field_simp
    ring
  have hssd : sumSqDev (xs ++ [amean xs]) = sumSqDev xs := by
    unfold sumSqDev
    simp only [hmean]
    rw [List.map_append, List.sum_append]
    simp
  have hS : 0 ≤ sumSqDev xs := by
    unfold sumSqDev
    apply List.sum_nonneg
    intro x hx
    rcases List.mem_map.mp hx with ⟨y, _, rfl⟩
    exact mul_self_nonneg _
  have hlen : (((xs ++ [amean xs]).length : ℚ)) = (xs.length : ℚ) + 1 := by
    rw [List.length_append]
    simp
  have hm2 : (0 : ℚ) < amean xs * amean xs := mul_pos hm hm
  unfold percentRelativeMarginOfErrorSq moeSq variance
  rw [hmean, hssd, hlen]
  set n : ℚ := ((xs.length : ℚ)) with hn_def
  have key : sumSqDev xs / ((n + 1) * (n + 1)) ≤ sumSqDev xs / (n * n) := by
    rw [div_le_div_iff₀ (by nlinarith) (by nlinarith)]
    nlinarith [hS, hn]
  have lhs_eq : confCoeffSq * (sumSqDev xs / (n + 1)) / (n + 1) /
      (amean xs * amean xs) * 10000 =
      confCoeffSq * 10000 / (amean xs * amean xs) *
        (sumSqDev xs / ((n + 1) * (n + 1))) := by
    field_simp
    ring
  have rhs_eq : confCoeffSq * (sumSqDev xs / n) / n /
      (amean xs * amean xs) * 10000 =
      confCoeffSq * 10000 / (amean xs * amean xs) *
        (sumSqDev xs / (n * n)) := by
    field_simp
    ring
  rw [lhs_eq, rhs_eq]
  exact mul_le_mul_of_nonneg_left key
    (div_nonneg (by norm_num [confCoeffSq]) (le_of_lt hm2))

/-- Witness for C9 (amended): appending the mean 2 to `[1, 3]` does not
increase the squared relative margin of error. -/
theorem rmoe_nonincreasing_at_mean_witness :
    percentRelativeMarginOfErrorSq ([1, 3] ++ [amean [1, 3]])
      ≤ percentRelativeMarginOfErrorSq [1, 3] :=
  rmoe_nonincreasing_at_mean [1, 3] (List.cons_ne_nil 1 [3])
    (by norm_num [amean])

/-! ## The execution engine

Shallow embedding of `runSuite` / `_runSuite` / `runClientBenchmark` /
`runSingleBenchmarkPass` / `saveData` from `src/execution.ts`.

Benchmarks and clients are identified by their metadata (a natural number).
An `Env` supplies everything the surrounding JavaScript environment decides:
the monotone clock (`time`, read once per `performanceNow()` call, indexed
by a tick counter), whether the garbage-collection facility `global.gc` is
present (`gc`), the heap readings (`mem`, indexed by pass number), the
outcome of each lifecycle step of each single pass (`pass`, indexed by a
global pass counter; `none` means the step succeeds, `some e` means it
throws error `e`), the outcome of each `transformRawExample` call (`tf`,
indexed by pairing and call index: call 0 is the root raw example, call
`i + 1` is the i-th nested raw example), the suspension index during which
`cancel()` is invoked (`cancelAt`; `cancel()` can only run while the suite
is suspended at an `await`, counted by an await counter), and a bound on
the number of measured iterations (`fuel`, standing in for the unbounded
`while (true)` loop, which the JavaScript engine bounds only by time). -/

inductive Phase
  | VERIFY
  | WARMUP
  | ITERATION
deriving DecidableEq

inductive Subject
  | SUITE
  | BENCHMARK
  | CLIENT_BENCHMARK
  | CLIENT_BENCHMARK_PHASE
deriving DecidableEq

inductive EvType
  | START
  | END
deriving DecidableEq

/-- The `failure` record `{ error, phase }` stored in the run context. -/
structure Failure where
  error : Nat
  phase : Phase
deriving DecidableEq

/-- An emitted event.  Each event carries the shared suite values (only the
mutable `canceled` flag matters for the claims), the subject and type tags,
and the subject-specific fields.  The summary statistics field is not
modelled (no claim mentions it). -/
structure Event where
  subject : Subject
  type : EvType
  canceled : Bool
  benchmark : Option Nat := none
  client : Option Nat := none
  phase : Option Phase := none
  duration : Option ℚ := none
  failure : Option Failure := none
deriving DecidableEq

/-- Outcomes of the four lifecycle steps of one single pass (`none`:
succeeds, `some e`: throws `e`). -/
structure StepPlan where
  setup : Option Nat := none
  run : Option Nat := none
  verify : Option Nat := none
  teardown : Option Nat := none
deriving DecidableEq

/-- Heap reading returned by the memory-instrumentation facility. -/
structure MemUsage where
  heapUsed : ℚ
  heapTotal : ℚ
deriving DecidableEq

/-- Successful result of a single pass: `{ duration, memoryUsage? }`. -/
structure PassResult where
  duration : ℚ
  memoryUsage : Option MemUsage
deriving DecidableEq

structure Env where
  config : Configuration
  benchmarks : List Nat
  clients : List Nat
  numNested : Nat
  tf : Nat → Nat → Nat → Option Nat
  pass : Nat → StepPlan
  time : Nat → ℚ
  gc : Bool
  mem : Nat → MemUsage
  cancelAt : Option Nat
  fuel : Nat

/-- The run context plus the instrumentation counters of the embedding:
`tick` counts `performanceNow()` calls, `awaits` counts suspension points,
`passCount` counts invocations of the single-pass runner, `events` is the
stream handed to the reporter, and `saves` logs the invocations of the
`saveData` persistence hook (client metadata and the mean handed over). -/
structure RunState where
  canceled : Bool := false
  failure : Option Failure := none
  tick : Nat := 0
  awaits : Nat := 0
  passCount : Nat := 0
  events : List Event := []
  saves : List (Nat × ℚ) := []
deriving DecidableEq

def emit (st : RunState) (e : Event) : RunState :=
  { st with events := st.events ++ [e] }

/-- Whether a `cancel()` call scheduled during suspension `k` (0-indexed)
has become visible once `a` suspensions have completed. -/
def cancelFlag (env : Env) (a : Nat) : Bool :=
  match env.cancelAt with
  | some k => decide (k < a)
  | none => false

/-- One completed `await`: the suspension during which an external
`cancel()` call may run and set the sticky canceled flag. -/
def doAwait (env : Env) (st : RunState) : RunState :=
  { st with
    awaits := st.awaits + 1
    canceled := st.canceled || cancelFlag env (st.awaits + 1) }

/-- One `performanceNow()` reading. -/
def tickTime (env : Env) (st : RunState) : ℚ := env.time st.tick

def bumpTick (st : RunState) : RunState := { st with tick := st.tick + 1 }

/-- Ghost trace of the operations a single pass performs, used to state the
ordering of the lifecycle steps. -/
inductive PassAction
  | newClient
  | newBenchmark
  | setupStep
  | gcStep
  | runStep
  | memReadStep
  | verifyStep
  | teardownStep
  | yieldStep
deriving DecidableEq

/-- Translation of `runSingleBenchmarkPass`: construct a fresh client and a
fresh benchmark, `await setup()`, force a collection if `global.gc` is
present, read the clock, `await run()`, read the clock again, collect and
read the heap if `global.gc` is present, `await verify()` when the verify
flag is set, `await teardown()`, yield once, and return
`{ duration, memoryUsage? }`; any step that throws is caught, recorded as
`context.failure = { error, phase }`, and the pass returns `undefined`
(here `none`).  Besides the state and result, the embedding returns the
ghost trace of performed operations. -/
def runSingleBenchmarkPass (env : Env) (phase : Phase) (vflag : Bool)
    (st0 : RunState) : RunState × Option PassResult × List PassAction :=
  let plan := env.pass st0.passCount
  let pIdx := st0.passCount
  let st := { st0 with passCount := st0.passCount + 1 }
  let tr0 := [PassAction.newClient, PassAction.newBenchmark, PassAction.setupStep]
  match plan.setup with
  | some e =>
      (doAwait env { st with failure := some ⟨e, phase⟩ }, none, tr0)
  | none =>
    let st := doAwait env st
    let tr1 := tr0 ++ (if env.gc then [PassAction.gcStep] else [])
    let tStart := tickTime env st
    let st := bumpTick st
    match plan.run with
    | some e =>
        (doAwait env { st with failure := some ⟨e, phase⟩ }, none,
          tr1 ++ [PassAction.runStep])
    | none =>
      let st := doAwait env st
      let tEnd := tickTime env st
      let st := bumpTick st
      let dur := tEnd - tStart
      let memR : Option MemUsage := if env.gc then some (env.mem pIdx) else none
      let tr2 := tr1 ++ [PassAction.runStep] ++
        (if env.gc then [PassAction.gcStep, PassAction.memReadStep] else [])
      match (if vflag then plan.verify else none) with
      | some e =>
          (doAwait env { st with failure := some ⟨e, phase⟩ }, none,
            tr2 ++ [PassAction.verifyStep])
      | none =>
        let st := if vflag then doAwait env st else st
        let tr3 := tr2 ++ (if vflag then [PassAction.verifyStep] else [])
        match plan.teardown with
        | some e =>
            (doAwait env { st with failure := some ⟨e, phase⟩ }, none,
              tr3 ++ [PassAction.teardownStep])
        | none =>
          let st := doAwait env st
          let st := doAwait env st
          (st, some ⟨dur, memR⟩,
            tr3 ++ [PassAction.teardownStep, PassAction.yieldStep])

/-- First step of a pass plan that throws, taking the verify flag into
account (the `verify()` step only runs when the flag is set). -/
def planFirstErr (p : StepPlan) (vflag : Bool) : Option Nat :=
  match p.setup with
  | some e => some e
  | none =>
    match p.run with
    | some e => some e
    | none =>
      match (if vflag then p.verify else none) with
      | some e => some e
      | none => p.teardown

/-- A pass plan on which every lifecycle step succeeds. -/
def planOk (p : StepPlan) : Prop :=
  p.setup = none ∧ p.run = none ∧ p.verify = none ∧ p.teardown = none

lemma pass_events (env : Env) (ph : Phase) (v : Bool) (st : RunState) :
    (runSingleBenchmarkPass env ph v st).1.events = st.events := by
  cases v <;>
    rcases h1 : (env.pass st.passCount).setup with _ | e1 <;>
    rcases h2 : (env.pass st.passCount).run with _ | e2 <;>
    rcases h3 : (env.pass st.passCount).verify with _ | e3 <;>
    rcases h4 : (env.pass st.passCount).teardown with _ | e4 <;>
    simp [runSingleBenchmarkPass, h1, h2, h3, h4, doAwait, bumpTick]

lemma pass_saves (env : Env) (ph : Phase) (v : Bool) (st : RunState) :
    (runSingleBenchmarkPass env ph v st).1.saves = st.saves := by
  cases v <;>
    rcases h1 : (env.pass st.passCount).setup with _ | e1 <;>
    rcases h2 : (env.pass st.passCount).run with _ | e2 <;>
    rcases h3 : (env.pass st.passCount).verify with _ | e3 <;>
    rcases h4 : (env.pass st.passCount).teardown with _ | e4 <;>
    simp [runSingleBenchmarkPass, h1, h2, h3, h4, doAwait, bumpTick]

lemma pass_passCount (env : Env) (ph : Phase) (v : Bool) (st : RunState) :
    (runSingleBenchmarkPass env ph v st).1.passCount = st.passCount + 1 := by
  cases v <;>
    rcases h1 : (env.pass st.passCount).setup with _ | e1 <;>
    rcases h2 : (env.pass st.passCount).run with _ | e2 <;>
    rcases h3 : (env.pass st.passCount).verify with _ | e3 <;>
    rcases h4 : (env.pass st.passCount).teardown with _ | e4 <;>
    simp [runSingleBenchmarkPass, h1, h2, h3, h4, doAwait, bumpTick]

lemma pass_canceled_of_none (env : Env) (ph : Phase) (v : Bool)
    (st : RunState) (h : env.cancelAt = none) :
    (runSingleBenchmarkPass env ph v st).1.canceled = st.canceled := by
  cases v <;>
    rcases h1 : (env.pass st.passCount).setup with _ | e1 <;>
    rcases h2 : (env.pass st.passCount).run with _ | e2 <;>
    rcases h3 : (env.pass st.passCount).verify with _ | e3 <;>
    rcases h4 : (env.pass st.passCount).teardown with _ | e4 <;>
    simp [runSingleBenchmarkPass, h1, h2, h3, h4, doAwait, bumpTick,
      cancelFlag, h]

lemma pass_failure_eq (env : Env) (ph : Phase) (v : Bool) (st : RunState) :
    (runSingleBenchmarkPass env ph v st).1.failure =
      (match planFirstErr (env.pass st.passCount) v with
       | some e => some ⟨e, ph⟩
       | none => st.failure) := by
  cases v <;>
    rcases h1 : (env.pass st.passCount).setup with _ | e1 <;>
    rcases h2 : (env.pass st.passCount).run with _ | e2 <;>
    rcases h3 : (env.pass st.passCount).verify with _ | e3 <;>
    rcases h4 : (env.pass st.passCount).teardown with _ | e4 <;>
    simp [runSingleBenchmarkPass, planFirstErr, h1, h2, h3, h4, doAwait,
      bumpTick]

lemma pass_result_none_of_err (env : Env) (ph : Phase) (v : Bool)
    (st : RunState) (h : (planFirstErr (env.pass st.passCount) v).isSome) :
    (runSingleBenchmarkPass env ph v st).2.1 = none := by
  cases v <;>
    rcases h1 : (env.pass st.passCount).setup with _ | e1 <;>
    rcases h2 : (env.pass st.passCount).run with _ | e2 <;>
    rcases h3 : (env.pass st.passCount).verify with _ | e3 <;>
    rcases h4 : (env.pass st.passCount).teardown with _ | e4 <;>
    simp_all [runSingleBenchmarkPass, planFirstErr, h1, h2, h3, h4, doAwait,
      bumpTick]

lemma pass_ok (env : Env) (ph : Phase) (v : Bool) (st : RunState)
    (h1 : (env.pass st.passCount).setup = none)
    (h2 : (env.pass st.passCount).run = none)
    (h3 : v = true → (env.pass st.passCount).verify = none)
    (h4 : (env.pass st.passCount).teardown = none) :
    (runSingleBenchmarkPass env ph v st).1.failure = st.failure
    ∧ (runSingleBenchmarkPass env ph v st).2.1 =
        some ⟨env.time (st.tick + 1) - env.time st.tick,
          if env.gc then some (env.mem st.passCount) else none⟩
    ∧ (runSingleBenchmarkPass env ph v st).1.tick = st.tick + 2
    ∧ (runSingleBenchmarkPass env ph v st).2.2 =
        [PassAction.newClient, PassAction.newBenchmark, PassAction.setupStep]
          ++ (if env.gc then [PassAction.gcStep] else [])
          ++ [PassAction.runStep]
          ++ (if env.gc then [PassAction.gcStep, PassAction.memReadStep] else [])
          ++ (if v then [PassAction.verifyStep] else [])
          ++ [PassAction.teardownStep, PassAction.yieldStep] := by
  cases v
  · simp [runSingleBenchmarkPass, h1, h2, h4, doAwait, bumpTick, tickTime]
  · simp [runSingleBenchmarkPass, h1, h2, h3 rfl, h4, doAwait, bumpTick,
      tickTime]

/-! ## Claim C5 -/

/-- Claim C5: a successful single pass constructs a fresh client and a fresh
benchmark, then performs setup, then the timed run step, then (only when the
verify flag is set) verify, then teardown, in that order; the returned
duration spans exactly the two clock readings around the run step (ticks
`st.tick` and `st.tick + 1`, and no other reading is taken, the final tick
being `st.tick + 2`); the `memoryUsage` field is present exactly when the
garbage-collection facility is available, its absence never being an error;
and on success the result is `{ duration, memoryUsage? }` with the context
failure left untouched. -/
theorem single_pass_order_and_result (env : Env) (ph : Phase) (v : Bool)
    (st : RunState)
    (h1 : (env.pass st.passCount).setup = none)
    (h2 : (env.pass st.passCount).run = none)
    (h3 : v = true → (env.pass st.passCount).verify = none)
    (h4 : (env.pass st.passCount).teardown = none) :
    (runSingleBenchmarkPass env ph v st).1.failure = st.failure
    ∧ (runSingleBenchmarkPass env ph v st).2.1 =
        some ⟨env.time (st.tick + 1) - env.time st.tick,
          if env.gc then some (env.mem st.passCount) else none⟩
    ∧ (runSingleBenchmarkPass env ph v st).1.tick = st.tick + 2
    ∧ (runSingleBenchmarkPass env ph v st).2.2 =
        [PassAction.newClient, PassAction.newBenchmark, PassAction.setupStep]
          ++ (if env.gc then [PassAction.gcStep] else [])
          ++ [PassAction.runStep]
          ++ (if env.gc then [PassAction.gcStep, PassAction.memReadStep] else [])
          ++ (if v then [PassAction.verifyStep] else [])
          ++ [PassAction.teardownStep, PassAction.yieldStep] :=
  pass_ok env ph v st h1 h2 h3 h4

/-- All-success environment used by several witnesses: one benchmark, one
client, every lifecycle step succeeds, the clock reads its tick index, the
garbage-collection facility is present, no cancellation. -/
def envP : Env :=
  ⟨⟨1, 0, 2, 100, 5⟩, [0], [0], 0, fun _ _ _ => none, fun _ => {},
    fun n => (n : ℚ), true, fun _ => ⟨1, 2⟩, none, 1⟩

/-- Witness for C5: on the all-success environment with the verify flag set,
the pass returns the duration between ticks 0 and 1 with a memory reading,
and the ghost trace lists the lifecycle steps in order. -/
theorem single_pass_order_and_result_witness :
    (runSingleBenchmarkPass envP Phase.VERIFY true {}).2.1 =
      some ⟨envP.time 1 - envP.time 0, some (envP.mem 0)⟩
    ∧ (runSingleBenchmarkPass envP Phase.VERIFY true {}).2.2 =
      [PassAction.newClient, PassAction.newBenchmark, PassAction.setupStep,
        PassAction.gcStep, PassAction.runStep, PassAction.gcStep,
        PassAction.memReadStep, PassAction.verifyStep, PassAction.teardownStep,
        PassAction.yieldStep] := by
  have h := single_pass_order_and_result envP Phase.VERIFY true {} rfl rfl
    (fun _ => rfl) rfl
  refine ⟨?_, ?_⟩
  · simpa [envP] using h.2.1
  · simpa [envP] using h.2.2.2

/-! ## Phases, pairings and the suite -/

def phaseStartEv (b c : Nat) (ph : Phase) (canc : Bool) : Event :=
  { subject := Subject.CLIENT_BENCHMARK_PHASE, type := EvType.START,
    canceled := canc, benchmark := some b, client := some c, phase := some ph }

def phaseEndEv (b c : Nat) (ph : Phase) (canc : Bool) (dur : Option ℚ)
    (fl : Option Failure) : Event :=
  { subject := Subject.CLIENT_BENCHMARK_PHASE, type := EvType.END,
    canceled := canc, benchmark := some b, client := some c, phase := some ph,
    duration := dur, failure := fl }

def cbStartEv (b c : Nat) (canc : Bool) : Event :=
  { subject := Subject.CLIENT_BENCHMARK, type := EvType.START,
    canceled := canc, benchmark := some b, client := some c }

def cbEndEv (b c : Nat) (canc : Bool) (fl : Option Failure) : Event :=
  { subject := Subject.CLIENT_BENCHMARK, type := EvType.END,
    canceled := canc, benchmark := some b, client := some c, failure := fl }

def benchStartEv (b : Nat) (canc : Bool) : Event :=
  { subject := Subject.BENCHMARK, type := EvType.START, canceled := canc,
    benchmark := some b }

def benchEndEv (b : Nat) (canc : Bool) : Event :=
  { subject := Subject.BENCHMARK, type := EvType.END, canceled := canc,
    benchmark := some b }

def suiteStartEv (canc : Bool) : Event :=
  { subject := Subject.SUITE, type := EvType.START, canceled := canc }

def suiteEndEv (canc : Bool) : Event :=
  { subject := Subject.SUITE, type := EvType.END, canceled := canc }

/-- The `for` loops over verify passes and warmups: before each pass the
context is checked and the loop breaks once it is canceled or failed. -/
def passLoop (env : Env) (ph : Phase) (vflag : Bool) :
    Nat → RunState → RunState
  | 0, st => st
  | n + 1, st =>
    if st.canceled || st.failure.isSome then st
    else passLoop env ph vflag n (runSingleBenchmarkPass env ph vflag st).1

/-- First `transformRawExample` call that throws: the root raw example is
transformed first, then each nested raw example in order, and the first
thrown error aborts the `try` block. -/
def firstTransformErr (env : Env) (b c : Nat) : Option Nat :=
  (List.range (1 + env.numNested)).findSome? (env.tf b c)

/-- The `try { ... client.transformRawExample ... } catch` block: a thrown
transformation error is recorded as a VERIFY-phase context failure. -/
def transformStep (env : Env) (b c : Nat) (st : RunState) : RunState :=
  match firstTransformErr env b c with
  | some e => { st with failure := some ⟨e, Phase.VERIFY⟩ }
  | none => st

/-- State after the body of the VERIFY phase: START emitted, the phase
start time read (the reading happens at tick `st0.tick`, since emitting
consumes no tick), the raw example transformed, and up to `verifyPasses`
passes run with the verify flag set. -/
def verifyMid (env : Env) (b c : Nat) (st0 : RunState) : RunState :=
  passLoop env Phase.VERIFY true env.config.verifyPasses
    (transformStep env b c
      (bumpTick (emit st0 (phaseStartEv b c Phase.VERIFY st0.canceled))))

/-- VERIFY phase of `runClientBenchmark`: emit START unconditionally, read
the clock, transform the raw example, run up to `verifyPasses` passes with
the verify flag set, and emit END unconditionally, carrying the elapsed
time and the context failure. -/
def verifyPhase (env : Env) (b c : Nat) (st0 : RunState) : RunState :=
  let st := verifyMid env b c st0
  emit (bumpTick st) (phaseEndEv b c Phase.VERIFY st.canceled
    (some (env.time st.tick - env.time st0.tick)) st.failure)

/-- State after the body of the WARMUP phase (once entered): START emitted,
the phase start time read, and exactly `warmups` unverified passes run. -/
def warmupMid (env : Env) (b c : Nat) (st0 : RunState) : RunState :=
  passLoop env Phase.WARMUP false env.config.warmups
    (bumpTick (emit st0 (phaseStartEv b c Phase.WARMUP st0.canceled)))

/-- WARMUP phase: skipped entirely (no events) when the context is already
canceled or failed; otherwise emits START, runs exactly `warmups` passes
without verification, and emits END. -/
def warmupPhase (env : Env) (b c : Nat) (st0 : RunState) : RunState :=
  if !st0.canceled && st0.failure.isNone then
    let st := warmupMid env b c st0
    emit (bumpTick st) (phaseEndEv b c Phase.WARMUP st.canceled
      (some (env.time st.tick - env.time st0.tick)) st.failure)
  else st0

/-- One round of the `while (true)` iteration loop: emit an ITERATION
START and run an unverified pass.  The source then destructures the pass
result (`const { duration, memoryUsage } = await runSingleBenchmarkPass`),
so when the pass failed and returned `undefined` a `TypeError` is thrown
right there — after the START event and the context-failure write, before
the ITERATION END event — and nothing in `runClientBenchmark` or
`_runSuite` catches it.  The crash is modelled by returning `none` in the
second component; on success the duration is pushed and the ITERATION END
event is emitted carrying the pass duration and the context failure. -/
def iterRound (env : Env) (b c : Nat) (st : RunState) (samples : List ℚ) :
    RunState × Option (List ℚ) :=
  let st1 := emit st (phaseStartEv b c Phase.ITERATION st.canceled)
  let out := runSingleBenchmarkPass env Phase.ITERATION false st1
  match out.2.1 with
  | none => (out.1, none)
  | some r =>
    (emit out.1 (phaseEndEv b c Phase.ITERATION out.1.canceled
      (some r.duration) out.1.failure), some (samples ++ [r.duration]))

/-- The `while (true)` iteration loop, bounded by fuel: each round checks
the context, runs one round, propagates a crash, and otherwise stops once
`isFinalIteration` holds on a fresh clock reading.  A `none` second
component means the `TypeError` of a failed measured pass escaped. -/
def iterLoop (env : Env) (b c : Nat) (runStart : ℚ) :
    Nat → RunState → List ℚ → RunState × Option (List ℚ)
  | 0, st, samples => (st, some samples)
  | fuel + 1, st, samples =>
    if st.canceled || st.failure.isSome then (st, some samples)
    else
      let r := iterRound env b c st samples
      match r.2 with
      | none => (r.1, none)
      | some samples1 =>
        let tNow := tickTime env r.1
        let st4 := bumpTick r.1
        if isFinalIteration env.config runStart tNow samples1 then
          (st4, some samples1)
        else iterLoop env b c runStart fuel st4 samples1

/-- ITERATION phase: the phase start time is read unconditionally, then the
loop runs only when the context is neither canceled nor failed.  A `none`
second component propagates the destructuring crash. -/
def iterationPhase (env : Env) (b c : Nat) (st0 : RunState) :
    RunState × Option (List ℚ) :=
  let runStart := tickTime env st0
  let st := bumpTick st0
  if !st.canceled && st.failure.isNone then
    iterLoop env b c runStart env.fuel st []
  else (st, some [])

/-- State (and samples) after CLIENT_BENCHMARK START and the three phases,
separated by the fixed pauses (each pause is one suspension).  A `none`
second component means a failed measured pass crashed the pairing. -/
def pairMid (env : Env) (b c : Nat) (st0 : RunState) :
    RunState × Option (List ℚ) :=
  iterationPhase env b c
    (doAwait env (warmupPhase env b c
      (doAwait env (verifyPhase env b c
        (emit st0 (cbStartEv b c st0.canceled))))))

/-- Tail of a pairing that survived its phases: the final pause, the
CLIENT_BENCHMARK END event carrying the context failure, the failure
clear, and the `saveData` invocation with the client metadata and the mean
of the collected samples (`stats.amean()`). -/
def pairEnd (env : Env) (b c : Nat) (pr : RunState × List ℚ) : RunState :=
  let st := doAwait env pr.1
  let st := emit st (cbEndEv b c st.canceled st.failure)
  let st := { st with failure := none }
  { st with saves := st.saves ++ [(c, amean pr.2)] }

/-- Translation of `runClientBenchmark`: CLIENT_BENCHMARK START, the three
phases separated by the fixed pauses, then — unless the destructuring
`TypeError` of a failed measured pass already escaped — CLIENT_BENCHMARK
END carrying the context failure, the failure clear, and the `saveData`
hook.  The boolean is `true` when the pairing crashed (its promise
rejected); then no further event is emitted, the failure is never cleared
and `saveData` never runs.  The memory baseline read has no observable
effect in the model and is omitted. -/
def runClientBenchmark (env : Env) (b c : Nat) (st0 : RunState) :
    RunState × Bool :=
  let pr := pairMid env b c st0
  match pr.2 with
  | none => (pr.1, true)
  | some samples => (pairEnd env b c (pr.1, samples), false)

/-- The inner `for` loop of `_runSuite` over clients, breaking once the
context is canceled; a crashed pairing rejects the whole loop. -/
def clientLoop (env : Env) (b : Nat) : List Nat → RunState → RunState × Bool
  | [], st => (st, false)
  | c :: rest, st =>
    if st.canceled then (st, false)
    else
      let r := runClientBenchmark env b c st
      if r.2 then r else clientLoop env b rest r.1

/-- The outer `for` loop of `_runSuite` over benchmarks: the cancellation
check happens before BENCHMARK START, and BENCHMARK END is emitted once
the benchmark started — unless a pairing crashed, which skips it and
rejects the loop. -/
def benchLoop (env : Env) : List Nat → RunState → RunState × Bool
  | [], st => (st, false)
  | b :: rest, st =>
    if st.canceled then (st, false)
    else
      let st1 := emit st (benchStartEv b st.canceled)
      let r := clientLoop env b env.clients st1
      if r.2 then r
      else
        let st3 := emit r.1 (benchEndEv b r.1.canceled)
        benchLoop env rest st3

/-- Translation of `_runSuite` (and the completion behavior of `runSuite`):
SUITE START, the benchmark loop, SUITE END.  The boolean is `true` when a
destructuring `TypeError` escaped: then the suite promise rejects and the
SUITE END event is never emitted. -/
def runSuiteModel (env : Env) : RunState × Bool :=
  let st : RunState := {}
  let st := emit st (suiteStartEv st.canceled)
  let r := benchLoop env env.benchmarks st
  if r.2 then r else (emit r.1 (suiteEndEv r.1.canceled), false)

/-! ## The saveData persistence hook -/

inductive FileOp
  | read
  | write
deriving DecidableEq

/-- Outcome of the `readFile` call in `saveData`: the read may report an
error (the callback then logs and returns, writing nothing), or deliver a
content that either parses (`some data`) or does not — an empty or corrupt
file degrades to the empty object. -/
inductive FileRead
  | readErr
  | content (data : Option (List (Nat × List ℚ)))
deriving DecidableEq

/-- JavaScript `Number.prototype.toFixed(3)` as a value: round to the
nearest thousandth, ties toward the larger value. -/
def toFixed3 (q : ℚ) : ℚ := ((⌊q * 1000 + 1 / 2⌋ : ℤ) : ℚ) / 1000

/-- Append the new record under `name` in the parsed findings object. -/
def updateFindings (data : List (Nat × List ℚ)) (name : Nat) (v : ℚ) :
    List (Nat × List ℚ) :=
  if (data.lookup name).isSome then
    data.map (fun p => if p.1 = name then (p.1, p.2 ++ [v]) else p)
  else data ++ [(name, [v])]

/-- Translation of `saveData`: without the garbage-collection facility it
returns immediately, touching no file; with it, it reads `findings.json` —
if the read errors, it logs and returns with no write; otherwise an
unparsable content degrades to the empty object, the stat rounded to three
decimal places is appended under the client constructor's name, and the
file is written back.  Returns the file operations performed and the
content written (`none` when no write happened). -/
def saveData (gc : Bool) (file : FileRead) (name : Nat) (stat : ℚ) :
    List FileOp × Option (List (Nat × List ℚ)) :=
  if gc then
    match file with
    | FileRead.readErr => ([FileOp.read], none)
    | FileRead.content data =>
      ([FileOp.read, FileOp.write],
        some (updateFindings (data.getD []) name (toFixed3 stat)))
  else ([], none)

/-! ## Event counting -/

def keyMatch (e : Event) (s : Subject) (b c : Option Nat)
    (ph : Option Phase) : Bool :=
  decide (e.subject = s) && decide (e.benchmark = b) &&
    decide (e.client = c) && decide (e.phase = ph)

/-- Number of events with the given subject, type, and identifying fields. -/
def cnt (evs : List Event) (s : Subject) (t : EvType) (b c : Option Nat)
    (ph : Option Phase) : Nat :=
  evs.countP (fun e => keyMatch e s b c ph && decide (e.type = t))

/-- Number of events with the given subject and type, over all subjects of
that kind. -/
def cntSub (evs : List Event) (s : Subject) (t : EvType) : Nat :=
  evs.countP (fun e => decide (e.subject = s) && decide (e.type = t))

/-- Every subject instance that received a START event also received its
END event (and conversely): per identifying key, equally many START and END
events. -/
def balancedD (d : List Event) : Prop :=
  ∀ s b c ph, cnt d s EvType.START b c ph = cnt d s EvType.END b c ph

/-! ## Basic state lemmas -/

@[simp] lemma emit_events (st : RunState) (e : Event) :
    (emit st e).events = st.events ++ [e] := rfl

@[simp] lemma emit_canceled (st : RunState) (e : Event) :
    (emit st e).canceled = st.canceled := rfl

@[simp] lemma emit_failure (st : RunState) (e : Event) :
    (emit st e).failure = st.failure := rfl

@[simp] lemma emit_tick (st : RunState) (e : Event) :
    (emit st e).tick = st.tick := rfl

@[simp] lemma emit_passCount (st : RunState) (e : Event) :
    (emit st e).passCount = st.passCount := rfl

@[simp] lemma emit_saves (st : RunState) (e : Event) :
    (emit st e).saves = st.saves := rfl

@[simp] lemma bumpTick_events (st : RunState) :
    (bumpTick st).events = st.events := rfl

@[simp] lemma bumpTick_canceled (st : RunState) :
    (bumpTick st).canceled = st.canceled := rfl

@[simp] lemma bumpTick_failure (st : RunState) :
    (bumpTick st).failure = st.failure := rfl

@[simp] lemma bumpTick_tick (st : RunState) :
    (bumpTick st).tick = st.tick + 1 := rfl

@[simp] lemma bumpTick_passCount (st : RunState) :
    (bumpTick st).passCount = st.passCount := rfl

@[simp] lemma bumpTick_saves (st : RunState) :
    (bumpTick st).saves = st.saves := rfl

@[simp] lemma doAwait_events (env : Env) (st : RunState) :
    (doAwait env st).events = st.events := rfl

@[simp] lemma doAwait_failure (env : Env) (st : RunState) :
    (doAwait env st).failure = st.failure := rfl

@[simp] lemma doAwait_tick (env : Env) (st : RunState) :
    (doAwait env st).tick = st.tick := rfl

@[simp] lemma doAwait_passCount (env : Env) (st : RunState) :
    (doAwait env st).passCount = st.passCount := rfl

@[simp] lemma doAwait_saves (env : Env) (st : RunState) :
    (doAwait env st).saves = st.saves := rfl

lemma doAwait_canceled (env : Env) (st : RunState) :
    (doAwait env st).canceled =
      (st.canceled || cancelFlag env (st.awaits + 1)) := rfl

lemma doAwait_canceled_of_none (env : Env) (st : RunState)
    (h : env.cancelAt = none) :
    (doAwait env st).canceled = st.canceled := by
  simp [doAwait_canceled, cancelFlag, h]

lemma doAwait_canceled_of_zero (env : Env) (st : RunState)
    (h : env.cancelAt = some 0) :
    (doAwait env st).canceled = true := by
  simp [doAwait_canceled, cancelFlag, h]

lemma doAwait_canceled_mono (env : Env) (st : RunState)
    (h : st.canceled = true) : (doAwait env st).canceled = true := by
  simp [doAwait_canceled, h]

@[simp] lemma transformStep_events (env : Env) (b c : Nat) (st : RunState) :
    (transformStep env b c st).events = st.events := by
  unfold transformStep
  cases firstTransformErr env b c <;> rfl

@[simp] lemma transformStep_canceled (env : Env) (b c : Nat)
    (st : RunState) :
    (transformStep env b c st).canceled = st.canceled := by
  unfold transformStep
  cases firstTransformErr env b c <;> rfl

@[simp] lemma transformStep_tick (env : Env) (b c : Nat) (st : RunState) :
    (transformStep env b c st).tick = st.tick := by
  unfold transformStep
  cases firstTransformErr env b c <;> rfl

@[simp] lemma transformStep_passCount (env : Env) (b c : Nat)
    (st : RunState) :
    (transformStep env b c st).passCount = st.passCount := by
  unfold transformStep
  cases firstTransformErr env b c <;> rfl

@[simp] lemma transformStep_saves (env : Env) (b c : Nat) (st : RunState) :
    (transformStep env b c st).saves = st.saves := by
  unfold transformStep
  cases firstTransformErr env b c <;> rfl

lemma transformStep_failure_of_err (env : Env) (b c : Nat) (st : RunState)
    (e : Nat) (h : firstTransformErr env b c = some e) :
    (transformStep env b c st).failure = some ⟨e, Phase.VERIFY⟩ := by
  simp [transformStep, h]

/-! ## Loop lemmas -/

lemma passLoop_events (env : Env) (ph : Phase) (v : Bool) :
    ∀ (n : Nat) (st : RunState),
      (passLoop env ph v n st).events = st.events := by
  intro n
  induction n with
  | zero => intro st; rfl
  | succ n ih =>
    intro st
    unfold passLoop
    by_cases h : (st.canceled || st.failure.isSome) = true
    · simp [h]
    · rw [if_neg h, ih, pass_events]

lemma passLoop_saves (env : Env) (ph : Phase) (v : Bool) :
    ∀ (n : Nat) (st : RunState),
      (passLoop env ph v n st).saves = st.saves := by
  intro n
  induction n with
  | zero => intro st; rfl
  | succ n ih =>
    intro st
    unfold passLoop
    by_cases h : (st.canceled || st.failure.isSome) = true
    · simp [h]
    · rw [if_neg h, ih, pass_saves]

lemma passLoop_stop (env : Env) (ph : Phase) (v : Bool) (n : Nat)
    (st : RunState) (h : (st.canceled || st.failure.isSome) = true) :
    passLoop env ph v n st = st := by
  cases n with
  | zero => rfl
  | succ n => unfold passLoop; rw [if_pos h]

lemma passLoop_ok (env : Env) (ph : Phase) (v : Bool)
    (h0 : env.cancelAt = none) (hp : ∀ i, planOk (env.pass i)) :
    ∀ (n : Nat) (st : RunState), st.canceled = false → st.failure = none →
      (passLoop env ph v n st).passCount = st.passCount + n
      ∧ (passLoop env ph v n st).canceled = false
      ∧ (passLoop env ph v n st).failure = none := by
  intro n
  induction n with
  | zero => intro st hc hf; exact ⟨rfl, hc, hf⟩
  | succ n ih =>
    intro st hc hf
    have hguard : (st.canceled || st.failure.isSome) = false := by
      simp [hc, hf]
    have hplan := hp st.passCount
    have hfail : (runSingleBenchmarkPass env ph v st).1.failure = none := by
      rw [(pass_ok env ph v st hplan.1 hplan.2.1 (fun _ => hplan.2.2.1)
        hplan.2.2.2).1, hf]
    have hcanc : (runSingleBenchmarkPass env ph v st).1.canceled = false := by
      rw [pass_canceled_of_none env ph v st h0, hc]
    have hrec := ih (runSingleBenchmarkPass env ph v st).1 hcanc hfail
    unfold passLoop
    rw [if_neg (by simp [hguard])]
    refine ⟨?_, hrec.2.1, hrec.2.2⟩
    rw [hrec.1, pass_passCount]
    omega

/-! ## Counting lemmas -/

lemma cnt_nil (s : Subject) (t : EvType) (b c : Option Nat)
    (ph : Option Phase) : cnt [] s t b c ph = 0 := rfl

lemma cnt_append (xs ys : List Event) (s : Subject) (t : EvType)
    (b c : Option Nat) (ph : Option Phase) :
    cnt (xs ++ ys) s t b c ph = cnt xs s t b c ph + cnt ys s t b c ph :=
  List.countP_append _ _ _

lemma cntSub_append (xs ys : List Event) (s : Subject) (t : EvType) :
    cntSub (xs ++ ys) s t = cntSub xs s t + cntSub ys s t :=
  List.countP_append _ _ _

lemma cntSub_zero_of_subject (d : List Event) (s : Subject) (t : EvType)
    (h : ∀ e ∈ d, ¬ e.subject = s) : cntSub d s t = 0 := by
  unfold cntSub
  rw [List.countP_eq_zero]
  intro e he
  simp [h e he]

lemma balancedD_nil : balancedD [] := by
  intro s b c ph
  rfl

lemma balancedD_append {d1 d2 : List Event} (h1 : balancedD d1)
    (h2 : balancedD d2) : balancedD (d1 ++ d2) := by
  intro s b c ph
  rw [cnt_append, cnt_append, h1 s b c ph, h2 s b c ph]

/-- A START event and an END event over the same subject instance are
balanced. -/
lemma balancedD_pair (e1 e2 : Event) (hs : e1.subject = e2.subject)
    (hb : e1.benchmark = e2.benchmark) (hc : e1.client = e2.client)
    (hp : e1.phase = e2.phase) (h1 : e1.type = EvType.START)
    (h2 : e2.type = EvType.END) : balancedD [e1, e2] := by
  intro s b c ph
  have hk : keyMatch e1 s b c ph = keyMatch e2 s b c ph := by
    simp [keyMatch, hs, hb, hc, hp]
  simp only [cnt, List.countP_cons, List.countP_nil, h1, h2, hk]
  cases hkk : keyMatch e2 s b c ph <;> simp [hkk]

/-- Wrapping a balanced stream between a START event and a matching END
event stays balanced. -/
lemma balancedD_wrap (e1 e2 : Event) (d : List Event) (hd : balancedD d)
    (hs : e1.subject = e2.subject) (hb : e1.benchmark = e2.benchmark)
    (hc : e1.client = e2.client) (hp : e1.phase = e2.phase)
    (h1 : e1.type = EvType.START) (h2 : e2.type = EvType.END) :
    balancedD (e1 :: d ++ [e2]) := by
  intro s b c ph
  have hk : keyMatch e1 s b c ph = keyMatch e2 s b c ph := by
    simp [keyMatch, hs, hb, hc, hp]
  have hdd := hd s b c ph
  simp only [cnt, List.countP_cons, List.countP_append, List.countP_nil,
    h1, h2, hk] at hdd ⊢
  cases hkk : keyMatch e2 s b c ph <;> simp [hkk] <;> omega

/-! ## Phase delta lemmas -/

lemma verifyMid_events (env : Env) (b c : Nat) (st0 : RunState) :
    (verifyMid env b c st0).events =
      st0.events ++ [phaseStartEv b c Phase.VERIFY st0.canceled] := by
  simp [verifyMid, passLoop_events]

lemma verifyMid_saves (env : Env) (b c : Nat) (st0 : RunState) :
    (verifyMid env b c st0).saves = st0.saves := by
  simp [verifyMid, passLoop_saves]

/-- The VERIFY phase END event as emitted from the phase entry state. -/
def verifyEndEvAt (env : Env) (b c : Nat) (st0 : RunState) : Event :=
  phaseEndEv b c Phase.VERIFY (verifyMid env b c st0).canceled
    (some (env.time (verifyMid env b c st0).tick - env.time st0.tick))
    (verifyMid env b c st0).failure

lemma verifyPhase_events (env : Env) (b c : Nat) (st0 : RunState) :
    (verifyPhase env b c st0).events =
      st0.events ++ [phaseStartEv b c Phase.VERIFY st0.canceled,
        verifyEndEvAt env b c st0] := by
  simp [verifyPhase, verifyMid_events, verifyEndEvAt]

lemma verifyPhase_saves (env : Env) (b c : Nat) (st0 : RunState) :
    (verifyPhase env b c st0).saves = st0.saves := by
  simp [verifyPhase, verifyMid_saves]

lemma verifyPhase_failure (env : Env) (b c : Nat) (st0 : RunState) :
    (verifyPhase env b c st0).failure = (verifyMid env b c st0).failure := by
  simp [verifyPhase]

lemma verifyPhase_canceled (env : Env) (b c : Nat) (st0 : RunState) :
    (verifyPhase env b c st0).canceled = (verifyMid env b c st0).canceled := by
  simp [verifyPhase]

lemma verifyPhase_passCount (env : Env) (b c : Nat) (st0 : RunState) :
    (verifyPhase env b c st0).passCount =
      (verifyMid env b c st0).passCount := by
  simp [verifyPhase]

lemma warmupPhase_skip (env : Env) (b c : Nat) (st0 : RunState)
    (h : (!st0.canceled && st0.failure.isNone) = false) :
    warmupPhase env b c st0 = st0 := by
  simp [warmupPhase, h]

/-- The WARMUP phase END event as emitted from the phase entry state. -/
def warmupEndEvAt (env : Env) (b c : Nat) (st0 : RunState) : Event :=
  phaseEndEv b c Phase.WARMUP (warmupMid env b c st0).canceled
    (some (env.time (warmupMid env b c st0).tick - env.time st0.tick))
    (warmupMid env b c st0).failure

lemma warmupPhase_events_entered (env : Env) (b c : Nat) (st0 : RunState)
    (h : (!st0.canceled && st0.failure.isNone) = true) :
    (warmupPhase env b c st0).events =
      st0.events ++ [phaseStartEv b c Phase.WARMUP st0.canceled,
        warmupEndEvAt env b c st0] := by
  simp [warmupPhase, h, warmupMid, passLoop_events, warmupEndEvAt]

lemma warmupPhase_saves (env : Env) (b c : Nat) (st0 : RunState) :
    (warmupPhase env b c st0).saves = st0.saves := by
  by_cases h : (!st0.canceled && st0.failure.isNone) = true
  · simp [warmupPhase, h, warmupMid, passLoop_saves]
  · rw [warmupPhase_skip env b c st0 (Bool.eq_false_iff.mpr h)]

/-- Event delta of the WARMUP phase: empty when skipped, otherwise one
START/END pair. -/
lemma warmupPhase_delta (env : Env) (b c : Nat) (st0 : RunState) :
    ∃ d, (warmupPhase env b c st0).events = st0.events ++ d
      ∧ balancedD d
      ∧ (∀ e ∈ d, e.subject = Subject.CLIENT_BENCHMARK_PHASE
          ∧ e.phase = some Phase.WARMUP) := by
  by_cases h : (!st0.canceled && st0.failure.isNone) = true
  · refine ⟨_, warmupPhase_events_entered env b c st0 h, ?_, ?_⟩
    · exact balancedD_pair _ _ rfl rfl rfl rfl rfl rfl
    · intro e he
      simp only [List.mem_cons, List.not_mem_nil, or_false] at he
      rcases he with rfl | rfl <;> exact ⟨rfl, rfl⟩
  · refine ⟨[], ?_, balancedD_nil, by simp⟩
    rw [warmupPhase_skip env b c st0 (Bool.eq_false_iff.mpr h)]
    simp


lemma iterRound_saves (env : Env) (b c : Nat) (st : RunState)
    (samples : List ℚ) :
    (iterRound env b c st samples).1.saves = st.saves := by
  cases ho : (runSingleBenchmarkPass env Phase.ITERATION false
      (emit st (phaseStartEv b c Phase.ITERATION st.canceled))).2.1 <;>
    simp [iterRound, ho, pass_saves]

lemma iterRound_events_crash (env : Env) (b c : Nat) (st : RunState)
    (samples : List ℚ) (h : (iterRound env b c st samples).2 = none) :
    (iterRound env b c st samples).1.events =
      st.events ++ [phaseStartEv b c Phase.ITERATION st.canceled] := by
  cases ho : (runSingleBenchmarkPass env Phase.ITERATION false
      (emit st (phaseStartEv b c Phase.ITERATION st.canceled))).2.1 with
  | none => simp [iterRound, ho, pass_events]
  | some r => simp [iterRound, ho] at h

lemma iterRound_events_ok (env : Env) (b c : Nat) (st : RunState)
    (samples samples1 : List ℚ)
    (h : (iterRound env b c st samples).2 = some samples1) :
    ∃ κ dur fl, (iterRound env b c st samples).1.events =
      st.events ++ [phaseStartEv b c Phase.ITERATION st.canceled,
        phaseEndEv b c Phase.ITERATION κ dur fl] := by
  cases ho : (runSingleBenchmarkPass env Phase.ITERATION false
      (emit st (phaseStartEv b c Phase.ITERATION st.canceled))).2.1 with
  | none => simp [iterRound, ho] at h
  | some r =>
    refine ⟨(runSingleBenchmarkPass env Phase.ITERATION false
        (emit st (phaseStartEv b c Phase.ITERATION st.canceled))).1.canceled,
      some r.duration,
      (runSingleBenchmarkPass env Phase.ITERATION false
        (emit st (phaseStartEv b c Phase.ITERATION st.canceled))).1.failure,
      ?_⟩
    simp [iterRound, ho, pass_events]

@[simp] lemma phaseStartEv_type (b c : Nat) (ph : Phase) (κ : Bool) :
    (phaseStartEv b c ph κ).type = EvType.START := rfl

@[simp] lemma phaseEndEv_type (b c : Nat) (ph : Phase) (κ : Bool)
    (dur : Option ℚ) (fl : Option Failure) :
    (phaseEndEv b c ph κ dur fl).type = EvType.END := rfl

/-- Event delta of the bounded iteration loop: events are ITERATION phase
events of this pairing; when the loop returns (no crash) they are balanced,
and when a failed measured pass crashed it, the STARTs exceed the ENDs by
exactly one — the crashing round's START is left unmatched. -/
lemma iterLoop_delta (env : Env) (b c : Nat) (runStart : ℚ) :
    ∀ (fuel : Nat) (st : RunState) (samples : List ℚ),
      ∃ d, (iterLoop env b c runStart fuel st samples).1.events =
          st.events ++ d
        ∧ (∀ e ∈ d, e.subject = Subject.CLIENT_BENCHMARK_PHASE
            ∧ e.phase = some Phase.ITERATION)
        ∧ ((iterLoop env b c runStart fuel st samples).2.isSome = true →
            balancedD d)
        ∧ ((iterLoop env b c runStart fuel st samples).2 = none →
            ∀ s b' c' ph, cnt d s EvType.START b' c' ph =
              cnt d s EvType.END b' c' ph +
                (if keyMatch (phaseStartEv b c Phase.ITERATION false)
                    s b' c' ph then 1 else 0)) := by
  intro fuel
  induction fuel with
  | zero =>
    intro st samples
    refine ⟨[], by simp [iterLoop], by simp, fun _ => balancedD_nil, ?_⟩
    intro h
    simp [iterLoop] at h
  | succ n ih =>
    intro st samples
    by_cases hg : (st.canceled || st.failure.isSome) = true
    · have hEq : iterLoop env b c runStart (n + 1) st samples =
          (st, some samples) := by
        simp only [iterLoop]
        rw [if_pos hg]
      refine ⟨[], by simp [hEq], by simp, fun _ => balancedD_nil, ?_⟩
      intro h
      rw [hEq] at h
      simp at h
    · cases hr : (iterRound env b c st samples).2 with
      | none =>
        have hEq : iterLoop env b c runStart (n + 1) st samples =
            ((iterRound env b c st samples).1, none) := by
          simp only [iterLoop]
          rw [if_neg hg]
          simp only [hr]
        refine ⟨[phaseStartEv b c Phase.ITERATION st.canceled], ?_, ?_, ?_, ?_⟩
        · rw [hEq]
          exact iterRound_events_crash env b c st samples hr
        · intro e he
          simp only [List.mem_cons, List.not_mem_nil, or_false] at he
          subst he
          exact ⟨rfl, rfl⟩
        · intro h
          rw [hEq] at h
          simp at h
        · intro _ s b' c' ph
          have hk : keyMatch (phaseStartEv b c Phase.ITERATION st.canceled)
              s b' c' ph =
              keyMatch (phaseStartEv b c Phase.ITERATION false) s b' c' ph :=
            rfl
          simp only [cnt, List.countP_cons, List.countP_nil, hk]
          cases hkk : keyMatch (phaseStartEv b c Phase.ITERATION false)
              s b' c' ph <;>
            simp [hkk]
      | some samples1 =>
        obtain ⟨κ, dur, fl, hev⟩ :=
          iterRound_events_ok env b c st samples samples1 hr
        have hk1 : keyMatch (phaseStartEv b c Phase.ITERATION st.canceled) =
            keyMatch (phaseStartEv b c Phase.ITERATION false) := rfl
        have hk2 : keyMatch (phaseEndEv b c Phase.ITERATION κ dur fl) =
            keyMatch (phaseStartEv b c Phase.ITERATION false) := rfl
        by_cases hfin : isFinalIteration env.config runStart
            (tickTime env (iterRound env b c st samples).1) samples1 = true
        · have hEq : iterLoop env b c runStart (n + 1) st samples =
              (bumpTick (iterRound env b c st samples).1, some samples1) := by
            simp only [iterLoop]
            rw [if_neg hg]
            simp only [hr]
            rw [if_pos hfin]
          refine ⟨[phaseStartEv b c Phase.ITERATION st.canceled,
            phaseEndEv b c Phase.ITERATION κ dur fl], ?_, ?_, ?_, ?_⟩
          · rw [hEq]
            simp [hev]
          · intro e he
            simp only [List.mem_cons, List.not_mem_nil, or_false] at he
            rcases he with rfl | rfl <;> exact ⟨rfl, rfl⟩
          · intro _
            exact balancedD_pair _ _ rfl rfl rfl rfl rfl rfl
          · intro h
            rw [hEq] at h
            simp at h
        · have hEq : iterLoop env b c runStart (n + 1) st samples =
              iterLoop env b c runStart n
                (bumpTick (iterRound env b c st samples).1) samples1 := by
            simp only [iterLoop]
            rw [if_neg hg]
            simp only [hr]
            rw [if_neg hfin]
          obtain ⟨d2, hev2, hm2, hok2, hcr2⟩ :=
            ih (bumpTick (iterRound env b c st samples).1) samples1
          refine ⟨[phaseStartEv b c Phase.ITERATION st.canceled,
            phaseEndEv b c Phase.ITERATION κ dur fl] ++ d2, ?_, ?_, ?_, ?_⟩
          · rw [hEq, hev2]
            simp [hev]
          · intro e he
            rcases List.mem_append.mp he with he | he
            · simp only [List.mem_cons, List.not_mem_nil, or_false] at he
              rcases he with rfl | rfl <;> exact ⟨rfl, rfl⟩
            · exact hm2 e he
          · intro h
            rw [hEq] at h
            refine balancedD_append ?_ (hok2 h)
            exact balancedD_pair _ _ rfl rfl rfl rfl rfl rfl
          · intro h s b' c' ph
            rw [hEq] at h
            have h2 := hcr2 h s b' c' ph
            simp only [cnt, List.countP_append, List.countP_cons,
              List.countP_nil, hk1, hk2] at h2 ⊢
            cases hkk : keyMatch (phaseStartEv b c Phase.ITERATION false)
                s b' c' ph <;>
              simp [hkk] at h2 ⊢ <;>
              omega

lemma iterLoop_saves (env : Env) (b c : Nat) (runStart : ℚ) :
    ∀ (fuel : Nat) (st : RunState) (samples : List ℚ),
      (iterLoop env b c runStart fuel st samples).1.saves = st.saves := by
  intro fuel
  induction fuel with
  | zero => intro st samples; rfl
  | succ n ih =>
    intro st samples
    by_cases hg : (st.canceled || st.failure.isSome) = true
    · simp only [iterLoop]
      rw [if_pos hg]
    · cases hr : (iterRound env b c st samples).2 with
      | none =>
        simp only [iterLoop]
        rw [if_neg hg]
        simp only [hr]
        exact iterRound_saves env b c st samples
      | some samples1 =>
        by_cases hfin : isFinalIteration env.config runStart
            (tickTime env (iterRound env b c st samples).1) samples1 = true
        · simp only [iterLoop]
          rw [if_neg hg]
          simp only [hr]
          rw [if_pos hfin]
          simp [iterRound_saves]
        · simp only [iterLoop]
          rw [if_neg hg]
          simp only [hr]
          rw [if_neg hfin, ih]
          simp [iterRound_saves]

lemma iterationPhase_delta (env : Env) (b c : Nat) (st0 : RunState) :
    ∃ d, (iterationPhase env b c st0).1.events = st0.events ++ d
      ∧ (∀ e ∈ d, e.subject = Subject.CLIENT_BENCHMARK_PHASE
          ∧ e.phase = some Phase.ITERATION)
      ∧ ((iterationPhase env b c st0).2.isSome = true → balancedD d)
      ∧ ((iterationPhase env b c st0).2 = none →
          ∀ s b' c' ph, cnt d s EvType.START b' c' ph =
            cnt d s EvType.END b' c' ph +
              (if keyMatch (phaseStartEv b c Phase.ITERATION false)
                  s b' c' ph then 1 else 0)) := by
  by_cases h : (!st0.canceled && st0.failure.isNone) = true
  · have hEq : iterationPhase env b c st0 =
        iterLoop env b c (tickTime env st0) env.fuel (bumpTick st0) [] := by
      unfold iterationPhase
      rw [if_pos (by simpa using h)]
    obtain ⟨d, hd, hm, hok, hcr⟩ := iterLoop_delta env b c
      (tickTime env st0) env.fuel (bumpTick st0) []
    refine ⟨d, ?_, hm, ?_, ?_⟩
    · rw [hEq]
      simpa using hd
    · intro hh
      rw [hEq] at hh
      exact hok hh
    · intro hh
      rw [hEq] at hh
      exact hcr hh
  · have hEq : iterationPhase env b c st0 = (bumpTick st0, some []) := by
      unfold iterationPhase
      rw [if_neg (by simpa using h)]
    refine ⟨[], by simp [hEq], by simp, fun _ => balancedD_nil, ?_⟩
    intro hh
    rw [hEq] at hh
    simp at hh

lemma iterationPhase_saves (env : Env) (b c : Nat) (st0 : RunState) :
    (iterationPhase env b c st0).1.saves = st0.saves := by
  unfold iterationPhase
  by_cases h : (!st0.canceled && st0.failure.isNone) = true
  · rw [if_pos (by simpa using h)]
    simp [iterLoop_saves]
  · rw [if_neg (by simpa using h)]
    rfl

/-! ## Pairing lemmas -/

lemma pairMid_events (env : Env) (b c : Nat) (st0 : RunState) :
    ∃ d, (pairMid env b c st0).1.events =
        st0.events ++ (cbStartEv b c st0.canceled :: d)
      ∧ (∀ e ∈ d, e.subject = Subject.CLIENT_BENCHMARK_PHASE)
      ∧ ((pairMid env b c st0).2.isSome = true → balancedD d) := by
  obtain ⟨dw, hdw, hbw, hmw⟩ := warmupPhase_delta env b c
    (doAwait env (verifyPhase env b c (emit st0 (cbStartEv b c st0.canceled))))
  obtain ⟨di, hdi, hmi, hoki, _⟩ := iterationPhase_delta env b c
    (doAwait env (warmupPhase env b c
      (doAwait env (verifyPhase env b c
        (emit st0 (cbStartEv b c st0.canceled))))))
  refine ⟨[phaseStartEv b c Phase.VERIFY st0.canceled,
    verifyEndEvAt env b c (emit st0 (cbStartEv b c st0.canceled))]
      ++ dw ++ di, ?_, ?_, ?_⟩
  · unfold pairMid
    rw [hdi]
    simp only [doAwait_events]
    rw [hdw]
    simp only [doAwait_events]
    rw [verifyPhase_events]
    simp
  · intro e he
    rcases List.mem_append.mp he with he | he
    · rcases List.mem_append.mp he with he | he
      · simp only [List.mem_cons, List.not_mem_nil, or_false] at he
        rcases he with rfl | rfl <;> rfl
      · exact (hmw e he).1
    · exact (hmi e he).1
  · intro hOk
    refine balancedD_append (balancedD_append ?_ hbw) (hoki hOk)
    exact balancedD_pair _ _ rfl rfl rfl rfl rfl rfl

lemma pairMid_saves (env : Env) (b c : Nat) (st0 : RunState) :
    (pairMid env b c st0).1.saves = st0.saves := by
  simp [pairMid, iterationPhase_saves, warmupPhase_saves, verifyPhase_saves]

lemma pairEnd_events (env : Env) (b c : Nat) (pr : RunState × List ℚ) :
    (pairEnd env b c pr).events = pr.1.events ++
      [cbEndEv b c (doAwait env pr.1).canceled (doAwait env pr.1).failure] :=
  rfl

lemma pairEnd_failure (env : Env) (b c : Nat) (pr : RunState × List ℚ) :
    (pairEnd env b c pr).failure = none := rfl

lemma pairEnd_saves (env : Env) (b c : Nat) (pr : RunState × List ℚ) :
    (pairEnd env b c pr).saves = pr.1.saves ++ [(c, amean pr.2)] := rfl

lemma pairEnd_passCount (env : Env) (b c : Nat) (pr : RunState × List ℚ) :
    (pairEnd env b c pr).passCount = pr.1.passCount := rfl

lemma pairEnd_canceled_of_zero (env : Env) (b c : Nat)
    (pr : RunState × List ℚ) (h : env.cancelAt = some 0) :
    (pairEnd env b c pr).canceled = true := by
  have hc : (pairEnd env b c pr).canceled = (doAwait env pr.1).canceled := rfl
  rw [hc, doAwait_canceled_of_zero env _ h]

lemma runClientBenchmark_eq_crash (env : Env) (b c : Nat) (st0 : RunState)
    (h : (pairMid env b c st0).2 = none) :
    runClientBenchmark env b c st0 = ((pairMid env b c st0).1, true) := by
  simp [runClientBenchmark, h]

lemma runClientBenchmark_eq_ok (env : Env) (b c : Nat) (st0 : RunState)
    (samples : List ℚ) (h : (pairMid env b c st0).2 = some samples) :
    runClientBenchmark env b c st0 =
      (pairEnd env b c ((pairMid env b c st0).1, samples), false) := by
  simp [runClientBenchmark, h]

/-- Event and state delta of a client-benchmark pairing that survives its
phases (no measured pass crashed): the emitted events are a
CLIENT_BENCHMARK START, a balanced stream of phase events, and a final
CLIENT_BENCHMARK END; the context failure is cleared; exactly one
`saveData` invocation is logged, keyed by the client. -/
lemma runClientBenchmark_delta (env : Env) (b c : Nat) (st0 : RunState)
    (samples : List ℚ) (h : (pairMid env b c st0).2 = some samples) :
    ∃ d, (runClientBenchmark env b c st0).1.events = st0.events ++ d
      ∧ balancedD d
      ∧ cntSub d Subject.CLIENT_BENCHMARK EvType.START = 1
      ∧ (∃ ev, d.getLast? = some ev ∧ ev.subject = Subject.CLIENT_BENCHMARK
          ∧ ev.type = EvType.END)
      ∧ (runClientBenchmark env b c st0).1.failure = none
      ∧ (runClientBenchmark env b c st0).1.saves =
          st0.saves ++ [(c, amean samples)]
      ∧ (runClientBenchmark env b c st0).2 = false := by
  obtain ⟨d0, hd0, hm0, hok0⟩ := pairMid_events env b c st0
  have hbal0 : balancedD d0 := hok0 (by simp [h])
  rw [runClientBenchmark_eq_ok env b c st0 samples h]
  refine ⟨cbStartEv b c st0.canceled :: (d0 ++
    [cbEndEv b c (doAwait env (pairMid env b c st0).1).canceled
      (doAwait env (pairMid env b c st0).1).failure]), ?_, ?_, ?_, ?_,
    pairEnd_failure env b c _, ?_, rfl⟩
  · show (pairEnd env b c ((pairMid env b c st0).1, samples)).events = _
    rw [pairEnd_events]
    simp only []
    rw [hd0]
    simp
  · exact balancedD_wrap _ _ d0 hbal0 rfl rfl rfl rfl rfl rfl
  · rw [show cbStartEv b c st0.canceled :: (d0 ++ [cbEndEv b c
        (doAwait env (pairMid env b c st0).1).canceled
        (doAwait env (pairMid env b c st0).1).failure]) =
      [cbStartEv b c st0.canceled] ++ d0 ++ [cbEndEv b c
        (doAwait env (pairMid env b c st0).1).canceled
        (doAwait env (pairMid env b c st0).1).failure] by simp]
    rw [cntSub_append, cntSub_append]
    rw [cntSub_zero_of_subject d0 _ _ (fun e he => by simp [hm0 e he])]
    simp [cntSub, cbStartEv, cbEndEv, List.countP_cons]
  · refine ⟨cbEndEv b c (doAwait env (pairMid env b c st0).1).canceled
      (doAwait env (pairMid env b c st0).1).failure, ?_, rfl, rfl⟩
    rw [show cbStartEv b c st0.canceled :: (d0 ++ [cbEndEv b c
        (doAwait env (pairMid env b c st0).1).canceled
        (doAwait env (pairMid env b c st0).1).failure]) =
      (cbStartEv b c st0.canceled :: d0) ++ [cbEndEv b c
        (doAwait env (pairMid env b c st0).1).canceled
        (doAwait env (pairMid env b c st0).1).failure] by simp]
    exact List.getLast?_concat _
  · show (pairEnd env b c ((pairMid env b c st0).1, samples)).saves = _
    rw [pairEnd_saves]
    simp [pairMid_saves]

/-! ## Suite-level lemmas -/

lemma clientLoop_stop (env : Env) (b : Nat) (cs : List Nat) (st : RunState)
    (h : st.canceled = true) : clientLoop env b cs st = (st, false) := by
  cases cs with
  | nil => rfl
  | cons c rest => unfold clientLoop; rw [if_pos h]

lemma benchLoop_stop (env : Env) (bs : List Nat) (st : RunState)
    (h : st.canceled = true) : benchLoop env bs st = (st, false) := by
  cases bs with
  | nil => rfl
  | cons b rest => unfold benchLoop; rw [if_pos h]

/-! ## Claim C1 -/

/-- Environment whose only pairing fails during its first measured pass:
the verify pass (global pass 0) succeeds, the warmup count is zero, and the
`run` step of the first ITERATION pass (global pass 1) throws error 9. -/
def envCrash : Env :=
  ⟨⟨1, 0, 2, 100, 5⟩, [0], [0], 0, fun _ _ _ => none,
    fun i => if i = 1 then ⟨none, some 9, none, none⟩
      else ⟨none, none, none, none⟩,
    fun n => (n : ℚ), false, fun _ => ⟨0, 0⟩, none, 3⟩

/-- Claim C1 (code bug): the iteration loop destructures the result of the
single-pass runner (`const { duration, memoryUsage } = await
runSingleBenchmarkPass(...)`), and on a failed measured pass that result is
`undefined`, so a `TypeError` is thrown after the ITERATION START event and
caught nowhere: the suite promise rejects (the crash flag is `true`), the
SUITE END event is never emitted, the pairing's CLIENT_BENCHMARK END is
never emitted, and the ITERATION phase's START is left without an END —
contradicting the claimed capture-and-continue policy. -/
theorem iteration_failure_crashes_suite :
    (runSuiteModel envCrash).2 = true
    ∧ cntSub (runSuiteModel envCrash).1.events Subject.SUITE EvType.END = 0
    ∧ cntSub (runSuiteModel envCrash).1.events Subject.CLIENT_BENCHMARK
        EvType.END = 0
    ∧ cnt (runSuiteModel envCrash).1.events Subject.CLIENT_BENCHMARK_PHASE
        EvType.START (some 0) (some 0) (some Phase.ITERATION) = 1
    ∧ cnt (runSuiteModel envCrash).1.events Subject.CLIENT_BENCHMARK_PHASE
        EvType.END (some 0) (some 0) (some Phase.ITERATION) = 0 := by
  refine ⟨by decide, by decide, by decide, by decide, by decide⟩

/-! ## Claim C8 -/

/-- Claim C8: whenever a pairing completes (its promise does not reject),
its last emitted event is the CLIENT_BENCHMARK END carrying the failure
recorded at the end of the phases, and the Run Context's failure field is
reset to `none` afterwards, so every subsequent pairing begins with no
failure recorded.  When the pairing crashes instead, no CLIENT_BENCHMARK
END event is emitted at all, so the claim's premise never obtains there
(and no subsequent pairing starts). -/
theorem failure_cleared_per_pairing (env : Env) (b c : Nat)
    (st0 : RunState) :
    ((runClientBenchmark env b c st0).2 = false →
      (runClientBenchmark env b c st0).1.failure = none
      ∧ ∃ d ev, (runClientBenchmark env b c st0).1.events = st0.events ++ d
          ∧ d.getLast? = some ev ∧ ev.subject = Subject.CLIENT_BENCHMARK
          ∧ ev.type = EvType.END
          ∧ ev.failure = (pairMid env b c st0).1.failure)
    ∧ ((runClientBenchmark env b c st0).2 = true →
      ∃ d, (runClientBenchmark env b c st0).1.events = st0.events ++ d
        ∧ cntSub d Subject.CLIENT_BENCHMARK EvType.END = 0) := by
  obtain ⟨d0, hd0, hm0, _⟩ := pairMid_events env b c st0
  cases hpm : (pairMid env b c st0).2 with
  | none =>
    rw [runClientBenchmark_eq_crash env b c st0 hpm]
    constructor
    · intro h
      simp at h
    · intro _
      refine ⟨cbStartEv b c st0.canceled :: d0, hd0, ?_⟩
      show cntSub ([cbStartEv b c st0.canceled] ++ d0)
        Subject.CLIENT_BENCHMARK EvType.END = 0
      rw [cntSub_append]
      rw [cntSub_zero_of_subject d0 _ _ (fun e he => by simp [hm0 e he])]
      simp [cntSub, cbStartEv, List.countP_cons]
  | some samples =>
    rw [runClientBenchmark_eq_ok env b c st0 samples hpm]
    constructor
    · intro _
      refine ⟨pairEnd_failure env b c _, cbStartEv b c st0.canceled ::
        (d0 ++ [cbEndEv b c (doAwait env (pairMid env b c st0).1).canceled
          (doAwait env (pairMid env b c st0).1).failure]),
        cbEndEv b c (doAwait env (pairMid env b c st0).1).canceled
          (doAwait env (pairMid env b c st0).1).failure, ?_, ?_, rfl, rfl,
        rfl⟩
      · show (pairEnd env b c ((pairMid env b c st0).1, samples)).events = _
        rw [pairEnd_events]
        simp only []
        rw [hd0]
        simp
      · rw [show cbStartEv b c st0.canceled :: (d0 ++ [cbEndEv b c
            (doAwait env (pairMid env b c st0).1).canceled
            (doAwait env (pairMid env b c st0).1).failure]) =
          (cbStartEv b c st0.canceled :: d0) ++ [cbEndEv b c
            (doAwait env (pairMid env b c st0).1).canceled
            (doAwait env (pairMid env b c st0).1).failure] by simp]
        exact List.getLast?_concat _
    · intro h
      simp at h

/-- Environment with three warmups, every pass succeeding. -/
def envW : Env :=
  ⟨⟨1, 3, 2, 100, 5⟩, [0], [0], 0, fun _ _ _ => none, fun _ => {},
    fun n => (n : ℚ), false, fun _ => ⟨0, 0⟩, none, 1⟩

/-- Witness for C8: a completing pairing ends with its failure cleared. -/
theorem failure_cleared_per_pairing_witness :
    (runClientBenchmark envW 0 0 {}).1.failure = none :=
  ((failure_cleared_per_pairing envW 0 0 {}).1 (by decide)).1

/-! ## Claim C6 -/

@[simp] lemma initState_canceled : (({} : RunState)).canceled = false := rfl

@[simp] lemma initState_events : (({} : RunState)).events = [] := rfl

/-- With `cancel()` invoked during the first suspension, the second pause
of the pairing has already made the sticky flag visible, so the ITERATION
phase is skipped: the pairing cannot crash and collects no samples. -/
lemma pairMid_of_zero (env : Env) (b c : Nat) (st0 : RunState)
    (h : env.cancelAt = some 0) :
    pairMid env b c st0 =
      (bumpTick (doAwait env (warmupPhase env b c (doAwait env
        (verifyPhase env b c (emit st0 (cbStartEv b c st0.canceled)))))),
        some []) := by
  have hc : (doAwait env (warmupPhase env b c (doAwait env
      (verifyPhase env b c
        (emit st0 (cbStartEv b c st0.canceled)))))).canceled = true :=
    doAwait_canceled_of_zero env _ h
  unfold pairMid iterationPhase
  rw [if_neg (by simp [hc])]

/-- Claim C6 (amended): `cancel()` invoked synchronously right after the
suite starts (so it takes effect during the first suspension) leaves
exactly ONE CLIENT_BENCHMARK START event — the first pairing has already
started synchronously before the caller could cancel, and no further
pairing starts — while SUITE START and SUITE END are still emitted, the
START carrying `canceled: false` and the END carrying `canceled: true`. -/
theorem cancel_immediate_behavior (env : Env) (h0 : env.cancelAt = some 0)
    (hb : env.benchmarks ≠ []) (hc : env.clients ≠ []) :
    cntSub (runSuiteModel env).1.events Subject.CLIENT_BENCHMARK
      EvType.START = 1
    ∧ (runSuiteModel env).1.events.head? = some (suiteStartEv false)
    ∧ (runSuiteModel env).1.events.getLast? = some (suiteEndEv true) := by
  obtain ⟨b, bs, hbs⟩ := List.exists_cons_of_ne_nil hb
  obtain ⟨c, cs, hcs⟩ := List.exists_cons_of_ne_nil hc
  have hok : (pairMid env b c
      (emit (emit {} (suiteStartEv false)) (benchStartEv b false))).2 =
      some [] := by
    rw [pairMid_of_zero env b c _ h0]
  have hRB : runClientBenchmark env b c
      (emit (emit {} (suiteStartEv false)) (benchStartEv b false)) =
      (pairEnd env b c ((pairMid env b c
        (emit (emit {} (suiteStartEv false)) (benchStartEv b false))).1, []),
        false) :=
    runClientBenchmark_eq_ok env b c _ [] hok
  have hPc : (runClientBenchmark env b c
      (emit (emit {} (suiteStartEv false)) (benchStartEv b false))).1.canceled
      = true := by
    rw [hRB]
    exact pairEnd_canceled_of_zero env b c _ h0
  have hR2 : (runClientBenchmark env b c
      (emit (emit {} (suiteStartEv false)) (benchStartEv b false))).2 =
      false := by rw [hRB]
  have hcl : clientLoop env b (c :: cs)
      (emit (emit {} (suiteStartEv false)) (benchStartEv b false)) =
      ((runClientBenchmark env b c
        (emit (emit {} (suiteStartEv false)) (benchStartEv b false))).1,
        false) := by
    simp only [clientLoop]
    rw [if_neg (by simp), hR2]
    simp only [Bool.false_eq_true, if_false]
    exact clientLoop_stop env b cs _ hPc
  have hbl : benchLoop env (b :: bs) (emit {} (suiteStartEv false)) =
      (emit (runClientBenchmark env b c
        (emit (emit {} (suiteStartEv false)) (benchStartEv b false))).1
        (benchEndEv b true), false) := by
    simp only [benchLoop]
    rw [if_neg (by simp)]
    simp only [emit_canceled, initState_canceled, hcs, hcl]
    simp only [Bool.false_eq_true, if_false]
    rw [hPc]
    apply benchLoop_stop
    simp [hPc]
  have hmain : runSuiteModel env =
      (emit (emit (runClientBenchmark env b c
          (emit (emit {} (suiteStartEv false)) (benchStartEv b false))).1
        (benchEndEv b true)) (suiteEndEv true), false) := by
    simp only [runSuiteModel]
    simp only [emit_canceled, initState_canceled, hbs, hbl]
    simp only [Bool.false_eq_true, if_false, hPc]
  obtain ⟨dp, hdp, _, hcnt, _, _, _, _⟩ := runClientBenchmark_delta env b c
    (emit (emit {} (suiteStartEv false)) (benchStartEv b false)) [] hok
  have hev : (runSuiteModel env).1.events =
      [suiteStartEv false, benchStartEv b false] ++ dp ++
        [benchEndEv b true, suiteEndEv true] := by
    rw [hmain]
    simp only []
    rw [emit_events, emit_events, hdp]
    simp
  refine ⟨?_, ?_, ?_⟩
  · rw [hev, cntSub_append, cntSub_append, hcnt]
    simp [cntSub, suiteStartEv, benchStartEv, benchEndEv, suiteEndEv,
      List.countP_cons]
  · rw [hev]
    rfl
  · rw [hev, show ([suiteStartEv false, benchStartEv b false] ++ dp ++
      [benchEndEv b true, suiteEndEv true]) =
      ([suiteStartEv false, benchStartEv b false] ++ dp ++
        [benchEndEv b true]) ++ [suiteEndEv true] by simp]
    exact List.getLast?_concat _

/-- Environment of the cancellation scenario: one benchmark, two clients,
every pass succeeds, `cancel()` invoked during the first suspension. -/
def envC6 : Env :=
  ⟨⟨1, 1, 5, 100, 5⟩, [0], [0, 1], 0, fun _ _ _ => none, fun _ => {},
    fun n => (n : ℚ), false, fun _ => ⟨0, 0⟩, some 0, 2⟩

/-- Counterexample for C6: the claim expects zero CLIENT_BENCHMARK START
events when `cancel()` is invoked synchronously right after the suite
starts, but the first pairing has already been entered synchronously before
the caller could invoke `cancel()`, so exactly one CLIENT_BENCHMARK START
is emitted. -/
theorem cancel_immediate_counterexample :
    ¬ cntSub (runSuiteModel envC6).1.events Subject.CLIENT_BENCHMARK
        EvType.START = 0
    ∧ cntSub (runSuiteModel envC6).1.events Subject.CLIENT_BENCHMARK
        EvType.START = 1 := by
  refine ⟨by decide, by decide⟩

/-- Witness for C6 (amended), instantiating the cancellation scenario. -/
theorem cancel_immediate_behavior_witness :
    cntSub (runSuiteModel envC6).1.events Subject.CLIENT_BENCHMARK
      EvType.START = 1
    ∧ (runSuiteModel envC6).1.events.head? = some (suiteStartEv false)
    ∧ (runSuiteModel envC6).1.events.getLast? = some (suiteEndEv true) :=
  cancel_immediate_behavior envC6 rfl (by simp [envC6]) (by simp [envC6])

/-! ## Claim C2 -/

/-- Environment for the phase-event counterexample: client 0's raw-example
transformation throws error 7 (so its WARMUP is skipped with no events);
client 1 succeeds everywhere and, with `minSamples = 5` and two available
iterations, runs two measured passes. -/
def envC2 : Env :=
  ⟨⟨1, 1, 5, 1000, 5⟩, [0], [0, 1], 0,
    (fun _ c _ => if c = 0 then some 7 else none), fun _ => {},
    fun n => (n : ℚ), false, fun _ => ⟨0, 0⟩, none, 2⟩

/-- Counterexample for C2: in a run where the pairing (benchmark 0, client
0) starts (one CLIENT_BENCHMARK START) and its VERIFY phase records a
transformation failure, the WARMUP phase emits zero START events instead of
exactly one; moreover pairing (0, 1) emits two ITERATION START events (one
per measured pass) instead of exactly one. -/
theorem warmup_phase_skip_counterexample :
    cnt (runSuiteModel envC2).1.events Subject.CLIENT_BENCHMARK EvType.START
      (some 0) (some 0) none = 1
    ∧ cnt (runSuiteModel envC2).1.events Subject.CLIENT_BENCHMARK_PHASE
        EvType.START (some 0) (some 0) (some Phase.WARMUP) = 0
    ∧ cnt (runSuiteModel envC2).1.events Subject.CLIENT_BENCHMARK_PHASE
        EvType.START (some 0) (some 1) (some Phase.ITERATION) = 2 := by
  refine ⟨by decide, by decide, by decide⟩

/-- Claim C2 (amended): per pairing, the VERIFY phase emits exactly one
START and one END event even when the run is already failed or canceled;
the WARMUP phase emits exactly one START and one END when the context is
neither canceled nor failed as it is reached, and no event at all
otherwise; the ITERATION phase emits no event when the context is canceled
or failed as it is reached, and otherwise emits one START per executed pass
and one END per pass that succeeds: when every measured pass succeeds the
STARTs and ENDs pair up exactly, and when a measured pass fails the
destructuring `TypeError` crashes the pairing, leaving that pass's START
without an END — the STARTs then exceed the ENDs by exactly one. -/
theorem phase_event_discipline (env : Env) (b c : Nat) :
    (∀ st, (verifyPhase env b c st).events = st.events ++
      [phaseStartEv b c Phase.VERIFY st.canceled, verifyEndEvAt env b c st])
    ∧ (∀ st, (!st.canceled && st.failure.isNone) = false →
        warmupPhase env b c st = st)
    ∧ (∀ st, (!st.canceled && st.failure.isNone) = true →
        (warmupPhase env b c st).events = st.events ++
          [phaseStartEv b c Phase.WARMUP st.canceled,
            warmupEndEvAt env b c st])
    ∧ (∀ st, (!st.canceled && st.failure.isNone) = false →
        (iterationPhase env b c st).1.events = st.events)
    ∧ (∀ st, (iterationPhase env b c st).2.isSome = true →
        ∃ d, (iterationPhase env b c st).1.events = st.events ++ d
          ∧ (∀ s b' c' ph, cnt d s EvType.START b' c' ph =
              cnt d s EvType.END b' c' ph)
          ∧ ∀ e ∈ d, e.phase = some Phase.ITERATION)
    ∧ (∀ st, (iterationPhase env b c st).2 = none →
        ∃ d, (iterationPhase env b c st).1.events = st.events ++ d
          ∧ ∀ s b' c' ph, cnt d s EvType.START b' c' ph =
              cnt d s EvType.END b' c' ph +
                (if keyMatch (phaseStartEv b c Phase.ITERATION false)
                    s b' c' ph then 1 else 0)) := by
  refine ⟨verifyPhase_events env b c, warmupPhase_skip env b c,
    warmupPhase_events_entered env b c, ?_, ?_, ?_⟩
  · intro st h
    unfold iterationPhase
    rw [if_neg (by simp [h])]
    rfl
  · intro st h
    obtain ⟨d, hd, hm, hok, _⟩ := iterationPhase_delta env b c st
    exact ⟨d, hd, hok h, fun e he => (hm e he).2⟩
  · intro st h
    obtain ⟨d, hd, _, _, hcr⟩ := iterationPhase_delta env b c st
    exact ⟨d, hd, hcr h⟩

/-- Witness for C2 (amended): on a failed context the WARMUP phase is the
identity (no events); on a clean context it emits exactly its START/END
pair. -/
theorem phase_event_discipline_witness :
    warmupPhase envP 0 0
        ({ failure := some ⟨3, Phase.VERIFY⟩ } : RunState) =
      ({ failure := some ⟨3, Phase.VERIFY⟩ } : RunState)
    ∧ (warmupPhase envP 0 0 {}).events =
      [phaseStartEv 0 0 Phase.WARMUP false, warmupEndEvAt envP 0 0 {}] := by
  refine ⟨(phase_event_discipline envP 0 0).2.1 _ rfl, ?_⟩
  have h := (phase_event_discipline envP 0 0).2.2.1 ({} : RunState) rfl
  simpa using h

/-! ## Claim C4 -/

/-- Claim C4: with `warmups = w`, the WARMUP phase invokes the single-pass
runner exactly `w` times (each invocation bumps the pass counter by one)
when no failure or cancellation occurs, and exactly zero times when the
context is already failed (e.g. by VERIFY) or canceled when WARMUP is
reached. -/
theorem warmup_invocation_count (env : Env) (b c : Nat) (st : RunState)
    (h0 : env.cancelAt = none) (hp : ∀ i, planOk (env.pass i)) :
    (st.canceled = false → st.failure = none →
      (warmupPhase env b c st).passCount =
        st.passCount + env.config.warmups)
    ∧ ((st.canceled = true ∨ st.failure.isSome = true) →
      (warmupPhase env b c st).passCount = st.passCount) := by
  constructor
  · intro hc hf
    have hg : (!st.canceled && st.failure.isNone) = true := by simp [hc, hf]
    have hok := passLoop_ok env Phase.WARMUP false h0 hp env.config.warmups
      (bumpTick (emit st (phaseStartEv b c Phase.WARMUP st.canceled)))
      (by simp [hc]) (by simp [hf])
    unfold warmupPhase
    rw [if_pos hg]
    simp only [emit_passCount, bumpTick_passCount]
    unfold warmupMid
    rw [hok.1]
    simp
  · intro h
    have hg : (!st.canceled && st.failure.isNone) = false := by
      rcases h with h | h
      · simp [h]
      · rcases Option.isSome_iff_exists.mp h with ⟨f, hf⟩
        simp [hf]
    rw [warmupPhase_skip env b c st hg]

/-- Witness for C4: three warmups run three passes from a clean context and
zero passes from an already-canceled context. -/
theorem warmup_invocation_count_witness :
    (warmupPhase envW 0 0 {}).passCount = 3
    ∧ (warmupPhase envW 0 0 ({ canceled := true } : RunState)).passCount
      = 0 := by
  have h1 := (warmup_invocation_count envW 0 0 {} rfl
    (fun i => ⟨rfl, rfl, rfl, rfl⟩)).1 rfl rfl
  have h2 := (warmup_invocation_count envW 0 0
    ({ canceled := true } : RunState) rfl
    (fun i => ⟨rfl, rfl, rfl, rfl⟩)).2 (Or.inl rfl)
  exact ⟨by simpa [envW] using h1, by simpa using h2⟩

/-! ## Claim C7 -/

/-- Claim C7: when `transformRawExample` throws (on the root raw example or
on any of its nested examples) for a pairing entered with a clean context,
the failure is recorded as `{ error, VERIFY }` before any single pass runs,
no pass executes in any phase (the pass counter is unchanged across the
whole pairing), and the failure is carried on the VERIFY phase END event
and on the CLIENT_BENCHMARK END event; WARMUP and ITERATION emit no event
at all. -/
theorem transform_failure_blocks_passes (env : Env) (b c : Nat)
    (st0 : RunState) (e : Nat)
    (ht : firstTransformErr env b c = some e) (hf : st0.failure = none) :
    (runClientBenchmark env b c st0).1.passCount = st0.passCount
    ∧ (verifyMid env b c (emit st0 (cbStartEv b c st0.canceled))).failure
        = some ⟨e, Phase.VERIFY⟩
    ∧ (verifyEndEvAt env b c
        (emit st0 (cbStartEv b c st0.canceled))).failure
        = some ⟨e, Phase.VERIFY⟩
    ∧ (pairMid env b c st0).1.failure = some ⟨e, Phase.VERIFY⟩
    ∧ (runClientBenchmark env b c st0).1.events = st0.events ++
        [cbStartEv b c st0.canceled,
          phaseStartEv b c Phase.VERIFY st0.canceled,
          verifyEndEvAt env b c (emit st0 (cbStartEv b c st0.canceled)),
          cbEndEv b c (doAwait env (pairMid env b c st0).1).canceled
            (some ⟨e, Phase.VERIFY⟩)] := by
  have hTf : (transformStep env b c (bumpTick (emit
      (emit st0 (cbStartEv b c st0.canceled))
      (phaseStartEv b c Phase.VERIFY
        (emit st0 (cbStartEv b c st0.canceled)).canceled)))).failure
      = some ⟨e, Phase.VERIFY⟩ :=
    transformStep_failure_of_err env b c _ e ht
  have hTmid : verifyMid env b c (emit st0 (cbStartEv b c st0.canceled)) =
      transformStep env b c (bumpTick (emit
        (emit st0 (cbStartEv b c st0.canceled))
        (phaseStartEv b c Phase.VERIFY
          (emit st0 (cbStartEv b c st0.canceled)).canceled))) := by
    unfold verifyMid
    apply passLoop_stop
    simp [transformStep_failure_of_err env b c _ e ht]
  have hMf : (verifyMid env b c
      (emit st0 (cbStartEv b c st0.canceled))).failure
      = some ⟨e, Phase.VERIFY⟩ := by rw [hTmid]; exact hTf
  have hMp : (verifyMid env b c
      (emit st0 (cbStartEv b c st0.canceled))).passCount
      = st0.passCount := by rw [hTmid]; simp
  have hVf : (verifyPhase env b c
      (emit st0 (cbStartEv b c st0.canceled))).failure
      = some ⟨e, Phase.VERIFY⟩ := by
    rw [verifyPhase_failure]; exact hMf
  have hVp : (verifyPhase env b c
      (emit st0 (cbStartEv b c st0.canceled))).passCount
      = st0.passCount := by
    rw [verifyPhase_passCount]; exact hMp
  have hW : warmupPhase env b c (doAwait env (verifyPhase env b c
      (emit st0 (cbStartEv b c st0.canceled)))) =
      doAwait env (verifyPhase env b c
        (emit st0 (cbStartEv b c st0.canceled))) :=
    warmupPhase_skip _ _ _ _ (by simp [hVf])
  have hPM : pairMid env b c st0 =
      (bumpTick (doAwait env (doAwait env (verifyPhase env b c
        (emit st0 (cbStartEv b c st0.canceled))))), some []) := by
    unfold pairMid
    rw [hW]
    unfold iterationPhase
    rw [if_neg (by simp [hVf])]
  have hPMf : (pairMid env b c st0).1.failure = some ⟨e, Phase.VERIFY⟩ := by
    rw [hPM]
    simp [hVf]
  have hok : (pairMid env b c st0).2 = some [] := by rw [hPM]
  refine ⟨?_, hMf, hMf, hPMf, ?_⟩
  · rw [runClientBenchmark_eq_ok env b c st0 [] hok]
    show (pairEnd env b c ((pairMid env b c st0).1, [])).passCount = _
    rw [pairEnd_passCount]
    show (pairMid env b c st0).1.passCount = _
    rw [hPM]
    simp [hVp]
  · have hcf : (doAwait env (pairMid env b c st0).1).failure
        = some ⟨e, Phase.VERIFY⟩ := by simp [hPMf]
    have hPMev : (pairMid env b c st0).1.events =
        st0.events ++ [cbStartEv b c st0.canceled,
          phaseStartEv b c Phase.VERIFY st0.canceled,
          verifyEndEvAt env b c (emit st0 (cbStartEv b c st0.canceled))] := by
      conv_lhs => rw [hPM]
      simp only [bumpTick_events, doAwait_events]
      rw [verifyPhase_events]
      simp
    rw [runClientBenchmark_eq_ok env b c st0 [] hok]
    show (pairEnd env b c ((pairMid env b c st0).1, [])).events = _
    rw [pairEnd_events]
    show (pairMid env b c st0).1.events ++ _ = _
    rw [hcf, hPMev]
    simp

/-- Environment whose example transformation always throws error 7. -/
def envT : Env :=
  ⟨⟨2, 1, 2, 100, 5⟩, [0], [0], 1, fun _ _ _ => some 7, fun _ => {},
    fun n => (n : ℚ), false, fun _ => ⟨0, 0⟩, none, 1⟩

/-- Witness for C7: with a throwing transformation, a full pairing runs
zero passes and ends with the VERIFY-tagged failure recorded. -/
theorem transform_failure_blocks_passes_witness :
    (runClientBenchmark envT 0 0 {}).1.passCount = 0
    ∧ (pairMid envT 0 0 {}).1.failure = some ⟨7, Phase.VERIFY⟩ := by
  have h := transform_failure_blocks_passes envT 0 0 {} 7 (by decide) rfl
  exact ⟨by simpa using h.1, h.2.2.2.1⟩

/-! ## Claim C10 -/

lemma lookup_map_update (n : Nat) (v : ℚ) :
    ∀ data : List (Nat × List ℚ),
      (data.map (fun p => if p.1 = n then (p.1, p.2 ++ [v]) else p)).lookup n
        = (data.lookup n).map (fun l => l ++ [v]) := by
  intro data
  induction data with
  | nil => rfl
  | cons p rest ih =>
    obtain ⟨k, l⟩ := p
    by_cases h : k = n
    · subst h
      simp only [List.map_cons, if_pos rfl]
      simp [List.lookup]
    · simp only [List.map_cons]
      rw [if_neg (by simpa using h)]
      have hbeq : (n == k) = false := by
        simp [Ne.symm h]
      simp [List.lookup, hbeq, ih]

lemma lookup_append_left_none (n : Nat) :
    ∀ (d1 d2 : List (Nat × List ℚ)), d1.lookup n = none →
      (d1 ++ d2).lookup n = d2.lookup n := by
  intro d1
  induction d1 with
  | nil => intro d2 _; rfl
  | cons p rest ih =>
    intro d2 h
    obtain ⟨k, l⟩ := p
    by_cases hk : (n == k) = true
    · simp [List.lookup, hk] at h
    · have hb : (n == k) = false := Bool.eq_false_iff.mpr hk
      simp only [List.cons_append, List.lookup, hb] at h ⊢
      exact ih d2 h

lemma updateFindings_lookup (data : List (Nat × List ℚ)) (n : Nat) (v : ℚ) :
    (updateFindings data n v).lookup n =
      some ((data.lookup n).getD [] ++ [v]) := by
  unfold updateFindings
  by_cases h : (data.lookup n).isSome = true
  · rw [if_pos h, lookup_map_update]
    obtain ⟨l, hl⟩ := Option.isSome_iff_exists.mp h
    rw [hl]
    rfl
  · rw [if_neg h]
    have hn : data.lookup n = none :=
      Option.not_isSome_iff_eq_none.mp (by simpa using h)
    rw [lookup_append_left_none n data _ hn, hn]
    simp [List.lookup]

/-- Counterexample for C10: in the environment whose first measured pass
fails, the pairing is entered (one CLIENT_BENCHMARK START) but the
destructuring `TypeError` rejects the suite before the pairing's tail runs,
so no `saveData` invocation is ever logged — the hook does not run after
every pairing; moreover `saveData` itself writes nothing when the file read
reports an error, so even an invoked hook does not always append. -/
theorem savedata_crash_counterexample :
    (runSuiteModel envCrash).2 = true
    ∧ cntSub (runSuiteModel envCrash).1.events Subject.CLIENT_BENCHMARK
        EvType.START = 1
    ∧ (runSuiteModel envCrash).1.saves = []
    ∧ saveData true FileRead.readErr 0 1 = ([FileOp.read], none) := by
  refine ⟨by decide, by decide, by decide, by decide⟩

/-- Claim C10 (amended): the `saveData` persistence hook is invoked exactly
once, keyed by the client and handed the mean duration, after every
client-benchmark pairing that completes — a pairing crashed by the
destructuring `TypeError` of a failed measured pass never reaches the hook.
Invoked without the garbage-collection facility, `saveData` returns
immediately, performing no file read and no write; invoked with it, it
reads the findings file; when the read reports an error it logs and writes
nothing, and otherwise it performs exactly one read and one write,
appending the stat rounded to three decimal places to the array keyed by
the client constructor's name. -/
theorem saveData_spec (env : Env) :
    (∀ b c st samples, (pairMid env b c st).2 = some samples →
      (runClientBenchmark env b c st).1.saves =
        st.saves ++ [(c, amean samples)])
    ∧ (∀ b c st, (pairMid env b c st).2 = none →
      (runClientBenchmark env b c st).1.saves = st.saves)
    ∧ (∀ (file : FileRead) (n : Nat) (s : ℚ),
        saveData false file n s = ([], none))
    ∧ (∀ (n : Nat) (s : ℚ),
        saveData true FileRead.readErr n s = ([FileOp.read], none))
    ∧ (∀ (data : Option (List (Nat × List ℚ))) (n : Nat) (s : ℚ),
        (saveData true (FileRead.content data) n s).1 =
          [FileOp.read, FileOp.write]
        ∧ ((saveData true (FileRead.content data) n s).2.getD []).lookup n =
          some (((data.getD []).lookup n).getD [] ++ [toFixed3 s])) := by
  refine ⟨?_, ?_, fun file n s => rfl, fun n s => rfl,
    fun data n s => ⟨rfl, ?_⟩⟩
  · intro b c st samples h
    rw [runClientBenchmark_eq_ok env b c st samples h]
    show (pairEnd env b c ((pairMid env b c st).1, samples)).saves = _
    rw [pairEnd_saves]
    show (pairMid env b c st).1.saves ++ _ = _
    rw [pairMid_saves]
  · intro b c st h
    rw [runClientBenchmark_eq_crash env b c st h]
    exact pairMid_saves env b c st
  · show ((updateFindings (data.getD []) n (toFixed3 s))).lookup n = _
    exact updateFindings_lookup _ n (toFixed3 s)

/-- Witness for C10 (amended): a completing pairing logs exactly one
`saveData` invocation keyed by the client, and the crashed pairing logs
none. -/
theorem saveData_spec_witness :
    (runClientBenchmark envC6 0 0 {}).1.saves = [(0, amean [])]
    ∧ (runClientBenchmark envCrash 0 0 {}).1.saves = [] := by
  have h1 := (saveData_spec envC6).1 0 0 {} [] (by decide)
  have h2 := (saveData_spec envCrash).2.1 0 0 {} (by decide)
  exact ⟨by simpa using h1, by simpa using h2⟩

end GqlBench
